import Mathlib

/-!
Verification development for the agent execution engine of the yirgachefe
repository (src/agents/AgentRunner.ts, src/agents/types.ts, and the
Anthropic client / rate limiter in src/services).

The TypeScript source is shallowly embedded: every definition below is a
direct translation of a source function or type, with asynchronous effects
(event emission, checkpoint callbacks, sleeps, HTTP calls) made explicit as
items of a trace list, and thrown exceptions made explicit as `Except` /
tagged outcomes.
-/

namespace Yirga

/-- Role of a conversation message (source: `Message.role` in the anthropic
service module). -/
inductive Role where
  | user
  | assistant
deriving Repr, DecidableEq

/-- Tool input as seen by the engine.  The engine treats tool input as an
opaque object except for `extractDiscoveries`, which reads `input.path`
(`inputObj.path as string`); a missing `path` renders as the string
"undefined" inside the template literal, which `pathOf` mirrors. -/
structure ToolInput where
  path : Option String := none
deriving Repr, DecidableEq

/-- JS template-literal rendering of `inputObj.path`: a missing property
interpolates as "undefined". -/
def ToolInput.pathOf (i : ToolInput) : String :=
  match i.path with
  | some p => p
  | none => "undefined"

/-- Content blocks of a conversation message (source: `ContentBlock` in the
anthropic service module).  The source uses one loose record with optional
fields; the engine only ever constructs and consumes the four shapes below,
with a `tool_result` content being either a plain string or a nested block
list (`content: string | ContentBlock[]`), so the embedding uses a tagged
union as the spec's data model describes. -/
inductive ContentBlock where
  | text (text : String)
  | tool_use (id : String) (name : String) (input : ToolInput)
  | tool_resultStr (tool_use_id : String) (content : String) (is_error : Bool)
  | tool_resultBlocks (tool_use_id : String) (content : List ContentBlock) (is_error : Bool)
  | image (media_type : String) (data : String)
deriving Repr

/-- Conversation message content: `string | ContentBlock[]`. -/
inductive MsgContent where
  | str (s : String)
  | blocks (bs : List ContentBlock)
deriving Repr

/-- Conversation message (source: `Message`). -/
structure Message where
  role : Role
  content : MsgContent
deriving Repr

/-- Token usage reported by the transport (source: `ChatResponse.usage`). -/
structure Usage where
  input_tokens : Nat
  output_tokens : Nat
  cache_creation_input_tokens : Option Nat := none
  cache_read_input_tokens : Option Nat := none
deriving Repr, DecidableEq

/-- Stop reason of a transport response (source: `ChatResponse.stop_reason`). -/
inductive StopReason where
  | end_turn
  | tool_use
  | max_tokens
  | stop_sequence
deriving Repr, DecidableEq

/-- Transport response (source: `ChatResponse`; the constant `type:
'message'` and `role: 'assistant'` fields are omitted). -/
structure ChatResponse where
  id : String := ""
  model : String := ""
  content : List ContentBlock
  stop_reason : StopReason
  usage : Usage
deriving Repr

/-- Classified transport error (source: class `AnthropicError`). -/
structure AnthropicErr where
  message : String
  status : Nat
  errType : Option String := none
  retryAfterMs : Option Nat := none
deriving Repr, DecidableEq

/-- Source: `get isRateLimited() { return this.status === 429 }`. -/
def AnthropicErr.isRateLimited (e : AnthropicErr) : Bool := e.status == 429

/-- Source: `get isAuthError() { return this.status === 401 }`. -/
def AnthropicErr.isAuthError (e : AnthropicErr) : Bool := e.status == 401

/-- Source: `get isOverloaded() { return this.status === 529 }`. -/
def AnthropicErr.isOverloaded (e : AnthropicErr) : Bool := e.status == 529

/-- An error thrown inside the execution loop: either a classified
`AnthropicError` or a plain JS `Error` carrying only a message (e.g. the
"Agent execution was stopped" error, or the client's generic fallback). -/
inductive EngineError where
  | anthropic (e : AnthropicErr)
  | generic (message : String)
deriving Repr, DecidableEq

/-- The `.message` property of a thrown error. -/
def EngineError.message : EngineError → String
  | .anthropic e => e.message
  | .generic m => m

/-- Source: `error instanceof AnthropicError && (error.isRateLimited ||
error.isOverloaded || error.status >= 500)` (AgentRunner.ts executeLoop). -/
def isRetryable : EngineError → Bool
  | .anthropic e => e.isRateLimited || e.isOverloaded || decide (e.status ≥ 500)
  | .generic _ => false

/-- Directory entry of a `list_directory` tool payload (source: the cast
`result.data as Array<{ name: string; kind: string; path: string }>`). -/
structure DirEntry where
  name : String
  kind : String
  path : String
deriving Repr, DecidableEq

/-- Format information of a `read_file` tool payload (source: the cast in
`extractDiscoveries`, field `format`). -/
structure FormatInfo where
  fileType : String
  columns : Option (List String) := none
  jsonStructure : Option String := none
  delimiter : Option String := none
deriving Repr, DecidableEq

/-- Opaque tool-result data payload (`ToolResult.data: unknown`), modelled
as a record of exactly the properties the engine ever inspects: the
`includeImage`/`dataUrl` convention, the `list_directory` entry array, and
the `read_file` `content`/`format` fields.  An absent optional field models
a payload without that property; `entries` defaults to the empty list for
payloads that are not directory listings. -/
structure ToolData where
  includeImage : Option Bool := none
  dataUrl : Option String := none
  entries : List DirEntry := []
  content : Option String := none
  format : Option FormatInfo := none
deriving Repr, DecidableEq

/-- Result envelope returned by a tool (source: `ToolResult` in
agents/types.ts). -/
structure ToolResult where
  success : Bool
  output : String
  data : Option ToolData := none
deriving Repr, DecidableEq

/-- Outcome of calling `tool.execute(input)`: a returned result or a thrown
error with its message. -/
inductive ExecOutcome where
  | ok (r : ToolResult)
  | threw (message : String)
deriving Repr

/-- A tool of the agent's catalog (source: `Tool` in agents/types.ts; the
input schema is irrelevant to the engine's control flow and omitted). -/
structure Tool where
  name : String
  description : String := ""
  execute : ToolInput → ExecOutcome

/-- Discovery metadata record shapes built by the engine (source: the three
object literals assigned to `metadata` in `extractDiscoveries` /
`identifyDataType`). -/
inductive DiscoveryMeta where
  | formatMeta (fileType : String) (columns : Option (List String))
      (jsonStructure : Option String) (delimiter : Option String)
  | jsonMeta (isArray : Bool) (topLevelKeys : Option (List String))
      (arrayLength : Option Nat)
  | csvMeta (columns : List String) (rowCount : Nat)
deriving Repr, DecidableEq

/-- Discovery kind (source: `Discovery.type`). -/
inductive DiscoveryType where
  | file
  | directory
  | data_type
  | pattern
  | relationship
deriving Repr, DecidableEq

/-- A discovery (source: `Discovery` in agents/types.ts).  The source sets
`timestamp: new Date()`; wall-clock time is irrelevant to every claim, so
the embedding fixes the timestamp to 0. -/
structure Discovery where
  id : String
  dtype : DiscoveryType
  path : Option String := none
  description : String
  metadata : Option DiscoveryMeta := none
  timestamp : Nat := 0
deriving Repr, DecidableEq

/-- Engine-level cumulative token usage (source: the `{ input, output }`
pair in `AgentExecutionState.tokenUsage`). -/
structure TokenTotals where
  input : Nat
  output : Nat
deriving Repr, DecidableEq

/-- Checkpoint snapshot (source: `CheckpointData` in AgentRunner.ts). -/
structure CheckpointData where
  messages : List Message
  discoveries : List Discovery
  tokenUsage : TokenTotals
  iteration : Nat
deriving Repr

/-- Agent status (source: `AgentStatus`). -/
inductive AgentStatus where
  | idle
  | running
  | complete
  | error
deriving Repr, DecidableEq

/-- Terminal artifact of a run (source: `AgentResult`). -/
structure AgentResult where
  success : Bool
  summary : String
  discoveries : List Discovery
  conversationHistory : List Message
  tokenUsage : TokenTotals
deriving Repr

/-- Events emitted by the engine (source: `AgentEvent` in agents/types.ts,
restricted to the constructors `AgentRunner` actually emits). -/
inductive AgentEvent where
  | statusChange (status : AgentStatus) (message : Option String)
  | thinking (text : String)
  | toolCall (toolName : String) (input : ToolInput)
  | toolResult (toolName : String) (result : ToolResult)
  | message (role : Role) (content : String)
  | discovery (d : Discovery)
  | error (e : String)
  | complete (r : AgentResult)
deriving Repr

/-- One observable step of an engine run: an emitted event, an invocation
of the checkpoint callback, a transport (`client.chat`) call — recorded
with the iteration number, the 0-based call index and the value of the
consecutive-error counter at call time — or a sleep. -/
inductive TraceItem where
  | event (e : AgentEvent)
  | checkpoint (c : CheckpointData)
  | chatCall (iteration : Nat) (callIdx : Nat) (consecutiveErrors : Nat)
  | sleep (ms : Nat)
deriving Repr

/-- Agent configuration (source: `AgentConfig`; `maxIterations` and
`maxTokens` are optional, and the source reads them with `||` so an
explicit 0 also falls back to the default). -/
structure AgentConfig where
  name : String := ""
  description : String := ""
  systemPrompt : String := ""
  tools : List Tool
  maxIterations : Option Nat := none
  maxTokens : Option Nat := none

/-- Runner options (source: `AgentRunnerOptions` merged with the default
`{ checkpointInterval: 3 }`).  `onCheckpoint` records whether a checkpoint
callback is configured; `checkpointInterval := 0` models a falsy interval. -/
structure RunnerOptions where
  onCheckpoint : Bool := true
  checkpointInterval : Nat := 3

/-- Source: `DEFAULT_MAX_ITERATIONS = 50`. -/
def DEFAULT_MAX_ITERATIONS : Nat := 50

/-- Source: `MAX_CONSECUTIVE_ERRORS = 3`. -/
def MAX_CONSECUTIVE_ERRORS : Nat := 3

/-- Source: `this.config.maxIterations || DEFAULT_MAX_ITERATIONS`. -/
def effMaxIterations (cfg : AgentConfig) : Nat :=
  match cfg.maxIterations with
  | some n => if n == 0 then DEFAULT_MAX_ITERATIONS else n
  | none => DEFAULT_MAX_ITERATIONS

/-- Prefix test on character lists. -/
def listStartsWith : List Char → List Char → Bool
  | _, [] => true
  | [], _ :: _ => false
  | c :: cs, d :: ds => c == d && listStartsWith cs ds

/-- Substring test on character lists. -/
def listContainsSub : List Char → List Char → Bool
  | [], sub => sub.isEmpty
  | c :: cs, sub => listStartsWith (c :: cs) sub || listContainsSub cs sub

/-- Substring test (JS `String.prototype.includes` for a non-empty needle). -/
def strContains (s sub : String) : Bool := listContainsSub s.data sub.data

/-- JSON value, as far as `identifyDataType` inspects the result of
`JSON.parse`: array length, object keys, or some other value. -/
inductive JVal where
  | jnull
  | jbool (b : Bool)
  | jnum
  | jstr (s : String)
  | jarr (xs : List JVal)
  | jobj (fields : List (String × JVal))
deriving Repr

/-- JSON whitespace characters. -/
def isJsonWs (c : Char) : Bool := c == ' ' || c == '\t' || c == '\n' || c == '\r'

/-- Hexadecimal digit test. -/
def isHexDigitCh (c : Char) : Bool :=
  c.isDigit || ('a' ≤ c && c ≤ 'f') || ('A' ≤ c && c ≤ 'F')

/-- Drop leading JSON whitespace. -/
def skipWs (cs : List Char) : List Char := cs.dropWhile isJsonWs

/-- Parse the body of a JSON string literal, the opening quote already
consumed; returns the decoded string and the remaining input. -/
def parseJStringBody : Nat → List Char → Option (String × List Char)
  | 0, _ => none
  | _, [] => none
  | f + 1, c :: rest =>
    if c == '"' then some ("", rest)
    else if c == '\\' then
      match rest with
      | [] => none
      | e :: rest2 =>
        let step : Option (Char × List Char) :=
          if e == '"' then some ('"', rest2)
          else if e == '\\' then some ('\\', rest2)
          else if e == '/' then some ('/', rest2)
          else if e == 'b' then some (Char.ofNat 8, rest2)
          else if e == 'f' then some (Char.ofNat 12, rest2)
          else if e == 'n' then some ('\n', rest2)
          else if e == 'r' then some ('\r', rest2)
          else if e == 't' then some ('\t', rest2)
          else if e == 'u' then
            match rest2 with
            | h1 :: h2 :: h3 :: h4 :: rest3 =>
              if isHexDigitCh h1 && isHexDigitCh h2 && isHexDigitCh h3 && isHexDigitCh h4 then
                let v := [h1, h2, h3, h4].foldl
                  (fun a c => a * 16 + (if c.isDigit then c.toNat - 48
                    else if c.toNat ≥ 97 then c.toNat - 87 else c.toNat - 55)) 0
                some (Char.ofNat v, rest3)
              else none
            | _ => none
          else none
        match step with
        | some (ch, r) =>
          match parseJStringBody f r with
          | some (s, r') => some (String.mk (ch :: s.data), r')
          | none => none
        | none => none
    else if c.toNat < 32 then none
    else
      match parseJStringBody f rest with
      | some (s, r') => some (String.mk (c :: s.data), r')
      | none => none

/-- Parse a JSON number (grammar of `JSON.parse`), returning the remaining
input on success. -/
def parseJNumber (cs : List Char) : Option (List Char) :=
  let afterSign := match cs with
    | '-' :: rest => rest
    | _ => cs
  let intOk : Option (List Char) :=
    match afterSign with
    | '0' :: rest => some rest
    | c :: rest => if c.isDigit then some (rest.dropWhile Char.isDigit) else none
    | [] => none
  match intOk with
  | none => none
  | some r1 =>
    let r2? : Option (List Char) :=
      match r1 with
      | '.' :: rest =>
        let ds := rest.takeWhile Char.isDigit
        if ds.isEmpty then none else some (rest.dropWhile Char.isDigit)
      | _ => some r1
    match r2? with
    | none => none
    | some r2 =>
      match r2 with
      | e :: rest =>
        if e == 'e' || e == 'E' then
          let rest' := match rest with
            | s :: r => if s == '+' || s == '-' then r else rest
            | [] => rest
          let ds := rest'.takeWhile Char.isDigit
          if ds.isEmpty then none else some (rest'.dropWhile Char.isDigit)
        else some r2
      | [] => some r2

mutual

/-- Parse one JSON value (fuel-indexed recursive-descent model of
`JSON.parse`). -/
def parseJValue : Nat → List Char → Option (JVal × List Char)
  | 0, _ => none
  | f + 1, cs =>
    match skipWs cs with
    | '{' :: rest => parseJObjBody f rest
    | '[' :: rest => parseJArrBody f rest
    | '"' :: rest =>
      match parseJStringBody (rest.length + 1) rest with
      | some (s, r) => some (.jstr s, r)
      | none => none
    | 't' :: rest =>
      if rest.take 3 == ['r', 'u', 'e'] then some (.jbool true, rest.drop 3) else none
    | 'f' :: rest =>
      if rest.take 4 == ['a', 'l', 's', 'e'] then some (.jbool false, rest.drop 4) else none
    | 'n' :: rest =>
      if rest.take 3 == ['u', 'l', 'l'] then some (.jnull, rest.drop 3) else none
    | cs' =>
      match parseJNumber cs' with
      | some r => some (.jnum, r)
      | none => none

/-- Parse a JSON object body, the opening brace already consumed. -/
def parseJObjBody : Nat → List Char → Option (JVal × List Char)
  | 0, _ => none
  | f + 1, cs =>
    match skipWs cs with
    | '}' :: rest => some (.jobj [], rest)
    | cs' => parseJObjFields f cs' []

/-- Parse the fields of a JSON object after at least one field is known to
follow. -/
def parseJObjFields : Nat → List Char → List (String × JVal) → Option (JVal × List Char)
  | 0, _, _ => none
  | f + 1, cs, acc =>
    match skipWs cs with
    | '"' :: rest =>
      match parseJStringBody (rest.length + 1) rest with
      | some (key, r1) =>
        match skipWs r1 with
        | ':' :: r2 =>
          match parseJValue f r2 with
          | some (v, r3) =>
            match skipWs r3 with
            | ',' :: r4 => parseJObjFields f r4 (acc ++ [(key, v)])
            | '}' :: r4 => some (.jobj (acc ++ [(key, v)]), r4)
            | _ => none
          | none => none
        | _ => none
      | none => none
    | _ => none

/-- Parse a JSON array body, the opening bracket already consumed. -/
def parseJArrBody : Nat → List Char → Option (JVal × List Char)
  | 0, _ => none
  | f + 1, cs =>
    match skipWs cs with
    | ']' :: rest => some (.jarr [], rest)
    | cs' => parseJArrItems f cs' []

/-- Parse the items of a JSON array after at least one item is known to
follow. -/
def parseJArrItems : Nat → List Char → List JVal → Option (JVal × List Char)
  | 0, _, _ => none
  | f + 1, cs, acc =>
    match parseJValue f cs with
    | some (v, r1) =>
      match skipWs r1 with
      | ',' :: r2 => parseJArrItems f r2 (acc ++ [v])
      | ']' :: r2 => some (.jarr (acc ++ [v]), r2)
      | _ => none
    | none => none

end

/-- Model of `JSON.parse`: `some` on a valid JSON document, `none` on a
syntax error (the thrown `SyntaxError`). -/
def jsonParse (s : String) : Option JVal :=
  let cs := s.data
  match parseJValue (2 * cs.length + 8) cs with
  | some (v, rest) => if skipWs rest == [] then some v else none
  | none => none

/-- Source: function `identifyDataType(content, path)` at the bottom of
AgentRunner.ts.  Returns the `{ type, metadata }` pair or `null`. -/
def identifyDataType (content path : String) : Option (String × Option DiscoveryMeta) :=
  let trimmed := content.trim
  let jsonCandidate :=
    (trimmed.startsWith "\x7b" && strContains trimmed "\x7d") ||
    (trimmed.startsWith "[" && strContains trimmed "]")
  let jsonRes : Option (String × Option DiscoveryMeta) :=
    if jsonCandidate then
      match jsonParse trimmed with
      | some (.jarr xs) => some ("JSON", some (.jsonMeta true none (some xs.length)))
      | some (.jobj fields) =>
        some ("JSON", some (.jsonMeta false (some ((fields.map Prod.fst).take 10)) none))
      | _ => none
    else none
  match jsonRes with
  | some r => some r
  | none =>
    if path.endsWith ".csv" || (strContains trimmed "," && strContains trimmed "\n") then
      let lines := trimmed.splitOn "\n"
      if lines.length > 1 then
        let firstLine := lines.headD ""
        some ("CSV", some (.csvMeta ((firstLine.splitOn ",").map String.trim) (lines.length - 1)))
      else none
    else none

/-- Source: function `createToolResult(toolUseId, result, isError)` in the
anthropic service module. -/
def createToolResult (toolUseId : String) (result : String) (isError : Bool) : ContentBlock :=
  .tool_resultStr toolUseId result isError

/-- JS `\w` character class. -/
def isWordChar (c : Char) : Bool := c.isAlphanum || c == '_'

/-- Characters the JS regexp `.` does not match. -/
def isLineTerminator (c : Char) : Bool :=
  c == '\n' || c == '\r' || c == Char.ofNat 0x2028 || c == Char.ofNat 0x2029

/-- Match of the regexp `/^data:(image\/\w+);base64,(.+)$/` used by
`createToolResultWithImage`: returns the media type and base64 captures
(computed over the character list so that it evaluates definitionally). -/
def parseDataUrl (s : String) : Option (String × String) :=
  let cs := s.data
  if listStartsWith cs ("data:image/".data) then
    let rest := cs.drop 11
    let w := rest.takeWhile isWordChar
    let rest2 := rest.drop w.length
    if !w.isEmpty && listStartsWith rest2 (";base64,".data) then
      let b64 := rest2.drop 8
      if !b64.isEmpty && !(b64.any isLineTerminator) then
        some (String.mk ("image/".data ++ w), String.mk b64)
      else none
    else none
  else none

/-- Source: function `createToolResultWithImage` in the anthropic service
module.  A data URL that does not match the regexp makes the source throw
`Error('Invalid image data URL format')`, modelled as `Except.error`. -/
def createToolResultWithImage (toolUseId text imageDataUrl : String) (isError : Bool) :
    Except String ContentBlock :=
  match parseDataUrl imageDataUrl with
  | none => .error "Invalid image data URL format"
  | some (mediaType, base64Data) =>
    .ok (.tool_resultBlocks toolUseId [.text text, .image mediaType base64Data] isError)

/-- Source: function `extractTextContent(response)`: text blocks joined
with newlines. -/
def extractTextContent (response : ChatResponse) : String :=
  String.intercalate "\n" (response.content.filterMap (fun b =>
    match b with
    | .text t => some t
    | _ => none))

/-- A `tool_use` block as returned by `extractToolUses`. -/
structure ToolUseBlock where
  id : String
  name : String
  input : ToolInput
deriving Repr

/-- Source: function `extractToolUses(response)`. -/
def extractToolUses (response : ChatResponse) : List ToolUseBlock :=
  response.content.filterMap (fun b =>
    match b with
    | .tool_use i n inp => some ⟨i, n, inp⟩
    | _ => none)

/-- The dedup-and-emit idiom repeated three times in `extractDiscoveries`:
`if (!state.discoveries.find((d) => d.id === discovery.id)) { push; emit }`. -/
def addDiscovery (d : Discovery) (st : List Discovery × List AgentEvent) :
    List Discovery × List AgentEvent :=
  match st.1.find? (fun e => e.id == d.id) with
  | some _ => st
  | none => (st.1 ++ [d], st.2 ++ [.discovery d])

/-- Source: method `extractDiscoveries(toolName, input, result, state)` of
`AgentRunner`.  Returns the updated discovery list and the emitted
discovery events. -/
def extractDiscoveries (toolName : String) (input : ToolInput) (result : ToolResult)
    (discoveries : List Discovery) : List Discovery × List AgentEvent :=
  if !result.success then (discoveries, [])
  else
    let st0 : List Discovery × List AgentEvent := (discoveries, [])
    let st1 :=
      if toolName == "list_directory" then
        match result.data with
        | some d =>
          d.entries.foldl (fun st e =>
            addDiscovery
              { id := e.kind ++ "-" ++ e.path
                dtype := if e.kind == "directory" then .directory else .file
                path := some e.path
                description :=
                  (if e.kind == "directory" then "Directory" else "File") ++ ": " ++ e.name
                timestamp := 0 } st) st0
        | none => st0
      else st0
    if toolName == "read_file" then
      match result.data with
      | some d =>
        let path := input.pathOf
        match d.format with
        | some f =>
          addDiscovery
            { id := "data-type-" ++ path
              dtype := .data_type
              path := some path
              description := f.fileType ++ " file: " ++ path ++
                (match f.columns with
                 | some cols => " with " ++ toString cols.length ++ " columns"
                 | none => "")
              metadata := some (.formatMeta f.fileType f.columns f.jsonStructure f.delimiter)
              timestamp := 0 } st1
        | none =>
          match d.content with
          | some c =>
            if c != "" then
              match identifyDataType c path with
              | some (dt, meta) =>
                addDiscovery
                  { id := "data-type-" ++ path
                    dtype := .data_type
                    path := some path
                    description := dt ++ " data in " ++ path
                    metadata := meta
                    timestamp := 0 } st1
              | none => st1
            else st1
          | none => st1
      | none => st1
    else st1

/-- The discovery ids a tool result resolves to, before deduplication: the
branch structure of `extractDiscoveries` with only the id expressions kept.
Ids are functions of the tool name and payload paths alone: `kind ++ "-" ++
path` per directory entry for `list_directory`, `"data-type-" ++ path` for
`read_file`. -/
def derivedIds (toolName : String) (input : ToolInput) (result : ToolResult) : List String :=
  if !result.success then []
  else
    (if toolName == "list_directory" then
       match result.data with
       | some d => d.entries.map (fun e => e.kind ++ "-" ++ e.path)
       | none => []
     else []) ++
    (if toolName == "read_file" then
       match result.data with
       | some d =>
         match d.format with
         | some _ => ["data-type-" ++ input.pathOf]
         | none =>
           match d.content with
           | some c =>
             if c != "" then
               match identifyDataType c input.pathOf with
               | some _ => ["data-type-" ++ input.pathOf]
               | none => []
             else []
           | none => []
       | none => []
     else [])

/-- The image-attachment decision of the tool loop (AgentRunner.ts lines
328–335): `resultData && typeof resultData === 'object' && 'includeImage'
in resultData && resultData.includeImage === true && 'dataUrl' in
resultData && typeof resultData.dataUrl === 'string'`.  A function of the
result's data payload only — the tool name is not an argument. -/
def includesImage (r : ToolResult) : Bool :=
  match r.data with
  | some d => d.includeImage == some true && d.dataUrl.isSome
  | none => false

/-- Construction of the tool-result content block pushed for a tool whose
`execute` returned `result` (AgentRunner.ts lines 337–350): an image-bearing
block when `includesImage`, a plain block otherwise.  A throw from
`createToolResultWithImage` is caught by the surrounding catch, which emits
an error event and pushes an `is_error` block instead; the events emitted
by that catch are returned alongside the block. -/
def buildResultBlock (toolUseId : String) (r : ToolResult) : ContentBlock × List AgentEvent :=
  match r.data with
  | some d =>
    match d.includeImage, d.dataUrl with
    | some true, some u =>
      match createToolResultWithImage toolUseId r.output u (!r.success) with
      | .ok blk => (blk, [])
      | .error m =>
        let em := "Tool execution error: " ++ m
        (createToolResult toolUseId em true, [.error em])
    | _, _ => (createToolResult toolUseId r.output (!r.success), [])
  | none => (createToolResult toolUseId r.output (!r.success), [])

/-- One pass of the tool loop body (AgentRunner.ts lines 297–356) for a
single requested invocation: emits the `tool_call` event, looks the tool up
by name, synthesizes an error result for an unknown tool, runs `execute`
inside the failure boundary, emits the `tool_result` event and extracts
discoveries on a returned result, and converts a thrown error into an
`is_error` result plus an error event.  Returns the emitted trace, the
content block pushed onto `toolResults`, and the updated discoveries. -/
def handleToolUse (tools : List Tool) (tu : ToolUseBlock) (discoveries : List Discovery) :
    List TraceItem × ContentBlock × List Discovery :=
  let callEv : TraceItem := .event (.toolCall tu.name tu.input)
  match tools.find? (fun t => t.name == tu.name) with
  | none =>
    ([callEv], createToolResult tu.id ("Unknown tool: " ++ tu.name) true, discoveries)
  | some t =>
    match t.execute tu.input with
    | .threw m =>
      let em := "Tool execution error: " ++ m
      ([callEv, .event (.error em)], createToolResult tu.id em true, discoveries)
    | .ok r =>
      let st := extractDiscoveries tu.name tu.input r discoveries
      let blk := buildResultBlock tu.id r
      ([callEv, .event (.toolResult tu.name r)] ++ st.2.map .event ++ blk.2.map .event,
       blk.1, st.1)

/-- The full tool loop: invocations processed strictly in request order,
one at a time, results collected in order. -/
def processToolUses (tools : List Tool) :
    List ToolUseBlock → List Discovery → List TraceItem × List ContentBlock × List Discovery
  | [], ds => ([], [], ds)
  | tu :: rest, ds =>
    let h := handleToolUse tools tu ds
    let r := processToolUses tools rest h.2.2
    (h.1 ++ r.1, h.2.1 :: r.2.1, r.2.2)

/-- The mutable locals of `executeLoop` plus the `AgentExecutionState` it
owns.  `chatIdx` counts the transport calls made so far (it indexes the
transport stub) and `checks` counts the abort-signal checks made so far (it
indexes the external stop signal); both model external interactions, not
source variables. -/
structure LoopState where
  status : AgentStatus
  messages : List Message
  discoveries : List Discovery
  tokenUsage : TokenTotals
  currentResponse : Option ChatResponse := none
  error : Option String := none
  iteration : Nat
  consecutiveErrors : Nat
  chatIdx : Nat
  checks : Nat
deriving Repr

/-- Source: method `saveCheckpoint(state, iteration)`: invokes the
checkpoint callback when one is configured. -/
def saveCk (opts : RunnerOptions) (ls : LoopState) (iteration : Nat) : List TraceItem :=
  if opts.onCheckpoint then
    [.checkpoint { messages := ls.messages, discoveries := ls.discoveries,
                   tokenUsage := ls.tokenUsage, iteration := iteration }]
  else []

/-- The periodic checkpoint of loop step 3: `if (checkpointInterval &&
iteration % checkpointInterval === 0) saveCheckpoint(...)`. -/
def periodicCk (opts : RunnerOptions) (ls : LoopState) (iteration : Nat) : List TraceItem :=
  if opts.checkpointInterval != 0 && iteration % opts.checkpointInterval == 0 then
    saveCk opts ls iteration
  else []

/-- The state-update cluster run on every successful transport response
(AgentRunner.ts lines 238–243): reset the consecutive-error counter, record
the raw response, accumulate token usage; the iteration was already
incremented and one more chat call and abort check have happened. -/
def contLoopState (ls : LoopState) (resp : ChatResponse) : LoopState :=
  { ls with iteration := ls.iteration + 1, checks := ls.checks + 1, chatIdx := ls.chatIdx + 1,
            consecutiveErrors := 0, currentResponse := some resp,
            tokenUsage := ⟨ls.tokenUsage.input + resp.usage.input_tokens,
                           ls.tokenUsage.output + resp.usage.output_tokens⟩ }

/-- How the `while` loop of `executeLoop` exits: a returned success result,
the `while` condition failing (maximum iterations), a thrown error, or the
modelling artifact of running out of fuel (a real run always terminates;
claims quantify over runs that return a result). -/
inductive LoopExit where
  | completed (r : AgentResult)
  | maxIterExit (ls : LoopState)
  | threw (e : EngineError) (ls : LoopState)
  | fuelOut
deriving Repr

/-- The `while` loop of `executeLoop` (AgentRunner.ts lines 212–389),
fuel-indexed.  `transport` gives the outcome of the n-th `client.chat`
call; `stopSignal` gives the abort flag read by the n-th
`abortController.signal.aborted` check. -/
def loopGo (cfg : AgentConfig) (opts : RunnerOptions) (transport : Nat → Except EngineError ChatResponse)
    (stopSignal : Nat → Bool) : Nat → LoopState → List TraceItem × LoopExit
  | 0, _ => ([], .fuelOut)
  | fuel + 1, ls =>
    if ls.iteration < effMaxIterations cfg then
      if stopSignal ls.checks then
        (saveCk opts ls ls.iteration, .threw (.generic "Agent execution was stopped") ls)
      else
        let iter := ls.iteration + 1
        let pckpt := periodicCk opts ls iter
        let callItem : TraceItem := .chatCall iter ls.chatIdx ls.consecutiveErrors
        match transport ls.chatIdx with
        | .ok resp =>
          let ls1 : LoopState := contLoopState ls resp
          let textContent := extractTextContent resp
          let thinkTr : List TraceItem :=
            if textContent != "" then [.event (.thinking textContent)] else []
          let pre := pckpt ++ [callItem] ++ thinkTr
          match resp.stop_reason with
          | .end_turn =>
            let msgs := ls1.messages ++ [Message.mk .assistant (.blocks resp.content)]
            let ls2 := { ls1 with messages := msgs, status := .complete }
            let result : AgentResult :=
              { success := true, summary := textContent, discoveries := ls2.discoveries,
                conversationHistory := msgs, tokenUsage := ls2.tokenUsage }
            (pre ++ [.event (.message .assistant textContent),
                     .event (.statusChange .complete none)] ++ saveCk opts ls2 iter ++
               [.event (.complete result)],
             .completed result)
          | .tool_use =>
            let toolUses := extractToolUses resp
            let lsA := { ls1 with messages := ls1.messages ++ [Message.mk .assistant (.blocks resp.content)] }
            let p := processToolUses cfg.tools toolUses lsA.discoveries
            let lsB := { lsA with discoveries := p.2.2,
                                  messages := lsA.messages ++ [Message.mk .user (.blocks p.2.1)] }
            let r := loopGo cfg opts transport stopSignal fuel lsB
            (pre ++ p.1 ++ r.1, r.2)
          | _ =>
            let r := loopGo cfg opts transport stopSignal fuel ls1
            (pre ++ r.1, r.2)
        | .error e =>
          let cE := ls.consecutiveErrors + 1
          let lsE := { ls with iteration := iter, checks := ls.checks + 1,
                               chatIdx := ls.chatIdx + 1, consecutiveErrors := cE }
          let ckE := saveCk opts lsE iter
          if isRetryable e && cE < MAX_CONSECUTIVE_ERRORS then
            let m := e.message
            let cEs := toString cE
            let caps := toString MAX_CONSECUTIVE_ERRORS
            let errEv : TraceItem :=
              .event (.error ("API error (attempt " ++ cEs ++ "/" ++ caps ++ "): " ++ m ++
                ". Retrying..."))
            let lsR := { lsE with iteration := iter - 1 }
            let r := loopGo cfg opts transport stopSignal fuel lsR
            (pckpt ++ [callItem] ++ ckE ++ [errEv, .sleep (2 ^ cE * 1000)] ++ r.1, r.2)
          else
            (pckpt ++ [callItem] ++ ckE, .threw e lsE)
    else ([], .maxIterExit ls)

/-- Method `executeLoop` of `AgentRunner`: the initial `status_change`
and initial-prompt `message` events, the `while` loop, the
maximum-iterations epilogue, and the outer catch.  Returns the full trace
and the `AgentResult` (`none` only when the fuel ran out). -/
def executeLoopModel (cfg : AgentConfig) (opts : RunnerOptions)
    (transport : Nat → Except EngineError ChatResponse) (stopSignal : Nat → Bool)
    (fuel : Nat) (messages : List Message) (discoveries : List Discovery)
    (tokenUsage : TokenTotals) (startIteration : Nat) (initialPrompt : Option String) :
    List TraceItem × Option AgentResult :=
  let pre : List TraceItem :=
    [.event (.statusChange .running none)] ++
      (match initialPrompt with
       | some p => [.event (.message .user p)]
       | none => [])
  let ls : LoopState :=
    { status := .running, messages := messages, discoveries := discoveries,
      tokenUsage := tokenUsage, iteration := startIteration, consecutiveErrors := 0,
      chatIdx := 0, checks := 0 }
  match loopGo cfg opts transport stopSignal fuel ls with
  | (tr, .completed r) => (pre ++ tr, some r)
  | (tr, .maxIterExit ls') =>
    let msg := "Maximum iterations reached"
    (pre ++ tr ++ saveCk opts ls' ls'.iteration ++
       [.event (.statusChange .error (some msg)), .event (.error msg)],
     some { success := false, summary := "Agent reached maximum iterations without completing.",
            discoveries := ls'.discoveries, conversationHistory := ls'.messages,
            tokenUsage := ls'.tokenUsage })
  | (tr, .threw e ls') =>
    let msg := e.message
    (pre ++ tr ++ saveCk opts ls' ls'.iteration ++
       [.event (.statusChange .error (some msg)), .event (.error msg)],
     some { success := false, summary := "Agent error: " ++ msg,
            discoveries := ls'.discoveries, conversationHistory := ls'.messages,
            tokenUsage := ls'.tokenUsage })
  | (tr, .fuelOut) => (pre ++ tr, none)

/-- Method `run(initialPrompt)`: fresh state seeded with the initial user
message, loop started at iteration 0. -/
def runAgent (cfg : AgentConfig) (opts : RunnerOptions)
    (transport : Nat → Except EngineError ChatResponse) (stopSignal : Nat → Bool)
    (fuel : Nat) (initialPrompt : String) : List TraceItem × Option AgentResult :=
  executeLoopModel cfg opts transport stopSignal fuel
    [Message.mk .user (.str initialPrompt)] [] ⟨0, 0⟩ 0 (some initialPrompt)

/-- Method `resume(checkpoint)`: state rehydrated verbatim from the
snapshot, a `status_change` event with message "Resuming...", one
re-emitted discovery event per known discovery, loop started at the
recorded iteration with no initial-prompt message. -/
def resumeAgent (cfg : AgentConfig) (opts : RunnerOptions)
    (transport : Nat → Except EngineError ChatResponse) (stopSignal : Nat → Bool)
    (fuel : Nat) (cp : CheckpointData) : List TraceItem × Option AgentResult :=
  let pre : List TraceItem :=
    [.event (.statusChange .running (some "Resuming..."))] ++
      cp.discoveries.map (fun d => .event (.discovery d))
  let r := executeLoopModel cfg opts transport stopSignal fuel
    cp.messages cp.discoveries cp.tokenUsage cp.iteration none
  (pre ++ r.1, r.2)

/-! Model of the transport client (`AnthropicClient.chat`) and the rate
limiter (`RateLimiter`) from the services modules. -/

/-- One sample of the rate limiter's sliding usage window (source:
`TokenUsage` in the rateLimiter module). -/
structure TokenUsage where
  inputTokens : Nat
  outputTokens : Nat
  cacheCreationTokens : Option Nat := none
  cacheReadTokens : Option Nat := none
  timestamp : Nat
deriving Repr, DecidableEq

/-- Rate-limit event kind (source: `RateLimitEventType`). -/
inductive RLType where
  | waiting
  | resumed
  | usage_update
deriving Repr, DecidableEq

/-- Rate-limit event (source: `RateLimitEvent`). -/
structure RateLimitEvent where
  rlType : RLType
  waitMs : Option Nat := none
  currentUsage : Option Nat := none
  limit : Option Nat := none
  message : Option String := none
deriving Repr, DecidableEq

/-- One observable step of a `chat` call: an HTTP request to the messages
endpoint (`makeRequest`), a rate-limiter event emission, or a sleep. -/
inductive ClientAction where
  | request (idx : Nat)
  | rlEvent (e : RateLimitEvent)
  | sleepFor (ms : Nat)
deriving Repr, DecidableEq

/-- Source: `windowMs = 60000` in `RateLimiter`. -/
def windowMs : Nat := 60000

/-- Source: `pruneOldUsage`: drop samples older than the window.  `now`
models `Date.now()`. -/
def pruneOldUsage (now : Nat) (h : List TokenUsage) : List TokenUsage :=
  h.filter (fun u => (u.timestamp : Int) > (now : Int) - (windowMs : Int))

/-- Source: `getCurrentUsage`: non-cached token sum over the pruned
window. -/
def getCurrentUsage (now : Nat) (h : List TokenUsage) : Nat :=
  (pruneOldUsage now h).foldl
    (fun s u => s + u.inputTokens + u.outputTokens +
      (match u.cacheCreationTokens with | some n => n | none => 0)) 0

/-- Source: `recordUsage`: append a sample, emit a `usage_update` event
with the current usage and `limit: 0`. -/
def recordUsage (now : Nat) (h : List TokenUsage) (it ot : Nat) (cc cr : Option Nat) :
    List TokenUsage × RateLimitEvent :=
  let h' := h ++ [{ inputTokens := it, outputTokens := ot, cacheCreationTokens := cc,
                    cacheReadTokens := cr, timestamp := now }]
  (h', { rlType := .usage_update, currentUsage := some (getCurrentUsage now h'),
         limit := some 0 })

/-- Source: `handleRateLimitError(retryAfterMs)`: emit a `waiting` event
carrying the delay and a human-readable message, sleep exactly that delay,
emit a `resumed` event. -/
def handleRateLimitError (now : Nat) (h : List TokenUsage) (retryAfterMs : Nat) :
    List ClientAction :=
  [.rlEvent { rlType := .waiting, waitMs := some retryAfterMs,
              currentUsage := some (getCurrentUsage now h), limit := some 0,
              message := some ("Rate limited by API. Retry after " ++
                toString ((retryAfterMs + 999) / 1000) ++ "s...") },
   .sleepFor retryAfterMs,
   .rlEvent { rlType := .resumed, message := some "Resuming after rate limit" }]

/-- Source: `MAX_RETRIES = 3` in the anthropic service module. -/
def MAX_RETRIES : Nat := 3

/-- The retry loop of `AnthropicClient.chat` (for-loop over `attempt`),
fuel-indexed by the remaining attempts (`fuel = MAX_RETRIES - attempt`).
`stub` gives the outcome of the n-th `makeRequest` HTTP call (`makeRequest`
only ever throws `AnthropicError`); `limiterOn` is whether
`this.rateLimiter` is non-null; `now` models `Date.now()`.  Returns the
action trace, the returned response or thrown error, and the limiter's
usage history. -/
def chatGo (stub : Nat → Except AnthropicErr ChatResponse) (limiterOn : Bool) (now : Nat) :
    Nat → Nat → List TokenUsage → Option AnthropicErr →
    List ClientAction × Except EngineError ChatResponse × List TokenUsage
  | 0, _, hist, lastError =>
    ([], .error (match lastError with
                 | some e => .anthropic e
                 | none => .generic "Request failed after retries"), hist)
  | fuel + 1, reqIdx, hist, _ =>
    let attempt := MAX_RETRIES - (fuel + 1)
    match stub reqIdx with
    | .ok resp =>
      if limiterOn then
        let rec' := recordUsage now hist resp.usage.input_tokens resp.usage.output_tokens
          resp.usage.cache_creation_input_tokens resp.usage.cache_read_input_tokens
        ([.request reqIdx, .rlEvent rec'.2], .ok resp, rec'.1)
      else ([.request reqIdx], .ok resp, hist)
    | .error e =>
      let raOk : Option Nat :=
        match e.retryAfterMs with
        | some ra => if e.isRateLimited && ra != 0 && limiterOn then some ra else none
        | none => none
      match raOk with
      | some ra =>
        let acts := handleRateLimitError now hist ra
        let r := chatGo stub limiterOn now fuel (reqIdx + 1) hist (some e)
        ([.request reqIdx] ++ acts ++ r.1, r.2.1, r.2.2)
      | none =>
        if e.isOverloaded then
          let r := chatGo stub limiterOn now fuel (reqIdx + 1) hist (some e)
          ([.request reqIdx, .sleepFor (2 ^ attempt * 1000)] ++ r.1, r.2.1, r.2.2)
        else if 400 ≤ e.status && e.status < 500 && e.status != 429 then
          ([.request reqIdx], .error (.anthropic e), hist)
        else
          let slp : List ClientAction :=
            if fuel != 0 then [.sleepFor (2 ^ attempt * 1000)] else []
          let r := chatGo stub limiterOn now fuel (reqIdx + 1) hist (some e)
          ([.request reqIdx] ++ slp ++ r.1, r.2.1, r.2.2)

/-- Source: method `chat(request)` of `AnthropicClient`: the retry loop
started at attempt 0 with no previous error. -/
def chatModel (stub : Nat → Except AnthropicErr ChatResponse) (limiterOn : Bool) (now : Nat)
    (hist : List TokenUsage) :
    List ClientAction × Except EngineError ChatResponse × List TokenUsage :=
  chatGo stub limiterOn now MAX_RETRIES 0 hist none

/-! Projections over traces, used to state the claims. -/

/-- The emitted events of a trace, in order. -/
def eventsOf (tr : List TraceItem) : List AgentEvent :=
  tr.filterMap (fun i => match i with | .event e => some e | _ => none)

/-- The checkpoint-callback invocations of a trace, in order. -/
def checkpointsOf (tr : List TraceItem) : List CheckpointData :=
  tr.filterMap (fun i => match i with | .checkpoint c => some c | _ => none)

/-- The transport calls of a trace, as (iteration, call index,
consecutive-error counter at call time) triples, in order. -/
def chatCallsOf (tr : List TraceItem) : List (Nat × Nat × Nat) :=
  tr.filterMap (fun i => match i with | .chatCall it idx cE => some (it, idx, cE) | _ => none)

/-- The engine sleeps of a trace, in order. -/
def sleepsOf (tr : List TraceItem) : List Nat :=
  tr.filterMap (fun i => match i with | .sleep ms => some ms | _ => none)

/-- The discovery events of a trace, in order. -/
def discoveryEventsOf (tr : List TraceItem) : List Discovery :=
  tr.filterMap (fun i => match i with | .event (.discovery d) => some d | _ => none)

/-- The error events of a trace, in order. -/
def errorEventsOf (tr : List TraceItem) : List String :=
  tr.filterMap (fun i => match i with | .event (.error e) => some e | _ => none)

/-- The tool names of the `tool_call` events of a trace, in order. -/
def toolCallEventsOf (tr : List TraceItem) : List String :=
  tr.filterMap (fun i => match i with | .event (.toolCall n _) => some n | _ => none)

/-- The tool names of the `tool_result` events of a trace, in order. -/
def toolResultEventsOf (tr : List TraceItem) : List String :=
  tr.filterMap (fun i => match i with | .event (.toolResult n _) => some n | _ => none)

/-- A terminal transition: a `complete` event or a `status_change` to
`error`. -/
def isTerminalItem : TraceItem → Bool
  | .event (.complete _) => true
  | .event (.statusChange .error _) => true
  | _ => false

/-- Number of terminal transitions in a trace. -/
def terminalCount (tr : List TraceItem) : Nat := (tr.filter isTerminalItem).length

/-- The `tool_use_id` of a tool-result content block ("" for any other
block shape). -/
def trBlockId : ContentBlock → String
  | .tool_resultStr i _ _ => i
  | .tool_resultBlocks i _ _ => i
  | _ => ""

/-- The `waiting` rate-limiter events of a client trace. -/
def waitingEventsOf (acts : List ClientAction) : List RateLimitEvent :=
  acts.filterMap (fun a => match a with
    | .rlEvent e => if e.rlType == .waiting then some e else none
    | _ => none)

/-- The `resumed` rate-limiter events of a client trace. -/
def resumedEventsOf (acts : List ClientAction) : List RateLimitEvent :=
  acts.filterMap (fun a => match a with
    | .rlEvent e => if e.rlType == .resumed then some e else none
    | _ => none)

/-- The HTTP request indices of a client trace. -/
def requestsOf (acts : List ClientAction) : List Nat :=
  acts.filterMap (fun a => match a with | .request i => some i | _ => none)

/-- The sleeps of a client trace. -/
def clientSleepsOf (acts : List ClientAction) : List Nat :=
  acts.filterMap (fun a => match a with | .sleepFor ms => some ms | _ => none)

/-- The `status_change` events of a trace, in order. -/
def statusChangesOf (tr : List TraceItem) : List (AgentStatus × Option String) :=
  tr.filterMap (fun i => match i with
    | .event (.statusChange s m) => some (s, m)
    | _ => none)

/-! Concrete fixtures used by the scenario-shaped claims. -/

/-- An abort signal that is never set. -/
def noStop : Nat → Bool := fun _ => false

/-- An abort signal that is already set before the loop starts. -/
def stopNow : Nat → Bool := fun _ => true

/-- Scenario tool A: succeeds. -/
def toolA : Tool := { name := "alpha", execute := fun _ => .ok { success := true, output := "outA" } }

/-- Scenario tool B: its `execute` throws. -/
def toolB : Tool := { name := "beta", execute := fun _ => .threw "boom" }

/-- Scenario tool C: succeeds. -/
def toolC : Tool := { name := "gamma", execute := fun _ => .ok { success := true, output := "outC" } }

/-- A `tool_use` response requesting tools A, B and C in that order. -/
def respABC : ChatResponse :=
  { content := [.text "calling tools",
      .tool_use "idA" "alpha" {}, .tool_use "idB" "beta" {}, .tool_use "idC" "gamma" {}],
    stop_reason := .tool_use, usage := { input_tokens := 10, output_tokens := 5 } }

/-- A final-answer response with text "done". -/
def respDone : ChatResponse :=
  { content := [.text "done"], stop_reason := .end_turn,
    usage := { input_tokens := 7, output_tokens := 3 } }

/-- Configuration with the three scenario tools. -/
def cfgC1 : AgentConfig := { tools := [toolA, toolB, toolC] }

/-- Transport for the tool-ordering scenario: one tool turn, then done. -/
def transportC1 : Nat → Except EngineError ChatResponse
  | 0 => .ok respABC
  | _ => .ok respDone

/-- The tool-ordering scenario run. -/
def runC1 : List TraceItem × Option AgentResult := runAgent cfgC1 {} transportC1 noStop 10 "go"

/-- A retryable overloaded transport error (status 529). -/
def overloadErr : AnthropicErr :=
  { message := "Overloaded", status := 529, errType := some "overloaded_error" }

/-- Configuration with no tools. -/
def cfgPlain : AgentConfig := { tools := [] }

/-- A transport whose chat call always fails with the retryable overload
error. -/
def transportOverload : Nat → Except EngineError ChatResponse :=
  fun _ => .error (.anthropic overloadErr)

/-- The consecutive-error-cap scenario run. -/
def runC2 : List TraceItem × Option AgentResult :=
  runAgent cfgPlain {} transportOverload noStop 10 "go"

/-- A no-op tool. -/
def noopTool : Tool := { name := "noop", execute := fun _ => .ok { success := true, output := "ok" } }

/-- A `tool_use` response requesting the no-op tool. -/
def respNoopTool : ChatResponse :=
  { content := [.tool_use "id1" "noop" {}], stop_reason := .tool_use,
    usage := { input_tokens := 1, output_tokens := 1 } }

/-- Transport failing on every chat call except the second, which succeeds
with a tool turn: demonstrates the consecutive-error counter resetting on a
successful call. -/
def transportReset : Nat → Except EngineError ChatResponse
  | 1 => .ok respNoopTool
  | _ => .error (.anthropic overloadErr)

/-- The counter-reset scenario run. -/
def runC2reset : List TraceItem × Option AgentResult :=
  runAgent { tools := [noopTool] } {} transportReset noStop 20 "go"

/-- A successful `read_file` result carrying format information. -/
def rfRes : ToolResult :=
  { success := true, output := "read",
    data := some { format := some { fileType := "CSV", columns := some ["a", "b"] } } }

/-- A `read_file` tool returning `rfRes`. -/
def rfTool : Tool := { name := "read_file", execute := fun _ => .ok rfRes }

/-- The `read_file` input used by the scenarios. -/
def rfInput : ToolInput := { path := some "d.csv" }

/-- A `tool_use` response requesting `read_file` on `d.csv`. -/
def respRead : ChatResponse :=
  { content := [.tool_use "idR" "read_file" rfInput], stop_reason := .tool_use,
    usage := { input_tokens := 1, output_tokens := 1 } }

/-- Configuration for the iteration-exhaustion scenario: `maxIterations :=
2` and the `read_file` tool. -/
def cfgC5 : AgentConfig := { tools := [rfTool], maxIterations := some 2 }

/-- The iteration-exhaustion scenario run: the transport always returns a
tool turn. -/
def runC5 : List TraceItem × Option AgentResult :=
  runAgent cfgC5 {} (fun _ => .ok respRead) noStop 10 "go"

/-- The discovery the `read_file` scenario derives from `rfRes`. -/
def dcsv : Discovery :=
  { id := "data-type-d.csv", dtype := .data_type, path := some "d.csv",
    description := "CSV file: d.csv with 2 columns",
    metadata := some (.formatMeta "CSV" (some ["a", "b"]) none none), timestamp := 0 }

/-- The conversation history after two `read_file` turns seeded by "go". -/
def historyC5 : List Message :=
  [Message.mk .user (.str "go"),
   Message.mk .assistant (.blocks [.tool_use "idR" "read_file" rfInput]),
   Message.mk .user (.blocks [.tool_resultStr "idR" "read" false]),
   Message.mk .assistant (.blocks [.tool_use "idR" "read_file" rfInput]),
   Message.mk .user (.blocks [.tool_resultStr "idR" "read" false])]

/-- A 429 error carrying a server-provided retry-after delay of 2000 ms. -/
def rlErr : AnthropicErr :=
  { message := "rate limited", status := 429, errType := some "rate_limit_error",
    retryAfterMs := some 2000 }

/-- HTTP stub for the rate-limit-recovery scenario: 429 with retry-after,
then success. -/
def stubC4 : Nat → Except AnthropicErr ChatResponse
  | 0 => .error rlErr
  | _ => .ok respDone

/-- The rate-limit-recovery chat call. -/
def chatC4 : List ClientAction × Except EngineError ChatResponse × List TokenUsage :=
  chatModel stubC4 true 0 []

/-- The engine run fed with the (successful) outcome of `chatC4`. -/
def engineC4 : List TraceItem × Option AgentResult :=
  runAgent cfgPlain {} (fun _ => chatC4.2.1) noStop 10 "go"

/-- A checkpoint fixture used by witnesses. -/
def cpEx : CheckpointData :=
  { messages := [Message.mk .user (.str "hi")],
    discoveries := [{ id := "file-a.txt", dtype := .file, path := some "a.txt",
                      description := "File: a.txt" }],
    tokenUsage := ⟨42, 17⟩, iteration := 4 }

/-- A `tool_use` response requesting a tool that is not in the catalog. -/
def respGhost : ChatResponse :=
  { content := [.tool_use "idG" "ghost" {}], stop_reason := .tool_use,
    usage := { input_tokens := 1, output_tokens := 1 } }

/-- Transport for the unknown-tool scenario: one unknown-tool turn, then
done. -/
def transportC7 : Nat → Except EngineError ChatResponse
  | 0 => .ok respGhost
  | _ => .ok respDone

/-- The unknown-tool scenario run. -/
def runC7 : List TraceItem × Option AgentResult := runAgent cfgPlain {} transportC7 noStop 10 "go"

/-- A response with `stop_reason: 'max_tokens'`. -/
def respMaxTok : ChatResponse :=
  { content := [.text "partial"], stop_reason := .max_tokens,
    usage := { input_tokens := 2, output_tokens := 2 } }

/-- A transport that always answers with `max_tokens`. -/
def transportMaxTok : Nat → Except EngineError ChatResponse := fun _ => .ok respMaxTok

/-- Run against a transport that always answers with `max_tokens`, capped
at two iterations. -/
def runC10 : List TraceItem × Option AgentResult :=
  runAgent { tools := [], maxIterations := some 2 } {} transportMaxTok noStop 10 "go"

/-- The loop state after `run("go")` enters the loop. -/
def lsC10 : LoopState :=
  { status := .running, messages := [Message.mk .user (.str "go")], discoveries := [],
    tokenUsage := ⟨0, 0⟩, iteration := 0, consecutiveErrors := 0, chatIdx := 0, checks := 0 }

/-- The n-th message of a run's conversation history. -/
def nthMessage (out : List TraceItem × Option AgentResult) (n : Nat) : Option Message :=
  match out.2 with
  | some r => r.conversationHistory.get? n
  | none => none

/-! General lemmas about the tool loop. -/

theorem trBlockId_buildResultBlock (tid : String) (r : ToolResult) :
    trBlockId (buildResultBlock tid r).1 = tid := by
  unfold buildResultBlock createToolResultWithImage createToolResult
  repeat' split
  all_goals try rfl
  all_goals rename_i heq
  all_goals split at heq
  all_goals cases heq
  all_goals rfl

theorem trBlockId_handleToolUse (tools : List Tool) (tu : ToolUseBlock) (ds : List Discovery) :
    trBlockId (handleToolUse tools tu ds).2.1 = tu.id := by
  unfold handleToolUse
  split
  · rfl
  · split
    · rfl
    · exact trBlockId_buildResultBlock tu.id _

theorem processToolUses_ids (tools : List Tool) :
    ∀ (tus : List ToolUseBlock) (ds : List Discovery),
      (processToolUses tools tus ds).2.1.map trBlockId = tus.map ToolUseBlock.id
  | [], _ => rfl
  | tu :: rest, ds => by
    simp only [processToolUses, List.map_cons]
    rw [trBlockId_handleToolUse, processToolUses_ids tools rest]

/-- C1: in the turn requesting tools [A, B, C] where B's execute throws and
A, C succeed, the single aggregated user message (index 2 of the history)
holds exactly three tool-result blocks in request order A, B (is_error with
the error message), C; C is still executed (its tool_result event is
emitted and its output appears); the engine is not crashed (the run
completes successfully); and in general the blocks of the aggregated
message are in bijection, in order, with the requested invocation ids. -/
theorem c1_tool_result_ordering :
    (∀ (tools : List Tool) (tus : List ToolUseBlock) (ds : List Discovery),
       (processToolUses tools tus ds).2.1.map trBlockId = tus.map ToolUseBlock.id) ∧
    nthMessage runC1 2 = some (Message.mk .user (.blocks
      [.tool_resultStr "idA" "outA" false,
       .tool_resultStr "idB" "Tool execution error: boom" true,
       .tool_resultStr "idC" "outC" false])) ∧
    strContains "Tool execution error: boom" "boom" = true ∧
    toolCallEventsOf runC1.1 = ["alpha", "beta", "gamma"] ∧
    toolResultEventsOf runC1.1 = ["alpha", "gamma"] ∧
    (runC1.2.map AgentResult.success) = some true :=
  ⟨processToolUses_ids, rfl, rfl, rfl, rfl, rfl⟩

/-- Witness for C1: the general ordering component evaluated at the
concrete scenario turn. -/
theorem c1_tool_result_ordering_witness :
    (processToolUses cfgC1.tools (extractToolUses respABC) []).2.1.map trBlockId =
      (extractToolUses respABC).map ToolUseBlock.id :=
  c1_tool_result_ordering.1 cfgC1.tools (extractToolUses respABC) []

/-- C2: against a transport that always fails with a retryable overload
error, the engine makes exactly 3 chat attempts (MAX_CONSECUTIVE_ERRORS),
all at iteration 1 and with consecutive-error counter 0, 1, 2 at call time,
then terminates with a single status change to error; and against a
transport that succeeds on its second call, the counter at call time drops
back to 0 after the success (calls 2–4 are a fresh run of three attempts at
iteration 2), so the cap is never hit early and retries stay bounded. -/
theorem c2_consecutive_error_cap :
    chatCallsOf runC2.1 = [(1, 0, 0), (1, 1, 1), (1, 2, 2)] ∧
    (runC2.2.map AgentResult.success) = some false ∧
    statusChangesOf runC2.1 = [(.running, none), (.error, some "Overloaded")] ∧
    chatCallsOf runC2reset.1 = [(1, 0, 0), (1, 1, 1), (2, 2, 0), (2, 3, 1), (2, 4, 2)] ∧
    (runC2reset.2.map AgentResult.success) = some false ∧
    statusChangesOf runC2reset.1 = [(.running, none), (.error, some "Overloaded")] :=
  ⟨rfl, rfl, rfl, rfl, rfl, rfl⟩

/-- C5: with maxIterations = 2 and a transport that always returns a
tool_use turn, the run makes exactly 2 chat calls (iterations 1 and 2) and
returns a well-formed unsuccessful result whose summary says "maximum
iterations", carrying the accumulated discovery and the full 5-message
history; a checkpoint with the final state is written immediately before
the terminal error transition. -/
theorem c5_iteration_exhaustion :
    runC5.2 = some
      { success := false,
        summary := "Agent reached maximum iterations without completing.",
        discoveries := [dcsv], conversationHistory := historyC5, tokenUsage := ⟨2, 2⟩ } ∧
    strContains "Agent reached maximum iterations without completing." "maximum iterations"
      = true ∧
    chatCallsOf runC5.1 = [(1, 0, 0), (2, 1, 0)] ∧
    checkpointsOf runC5.1 = [⟨historyC5, [dcsv], ⟨2, 2⟩, 2⟩] ∧
    runC5.1.drop (runC5.1.length - 3) =
      [.checkpoint ⟨historyC5, [dcsv], ⟨2, 2⟩, 2⟩,
       .event (.statusChange .error (some "Maximum iterations reached")),
       .event (.error "Maximum iterations reached")] ∧
    statusChangesOf runC5.1 = [(.running, none), (.error, some "Maximum iterations reached")] :=
  ⟨rfl, rfl, rfl, rfl, rfl, rfl⟩

/-- C4: on a 429 with retry-after 2000 ms followed by a success, the chat
call's action trace is exactly: request, one waiting event carrying the
2000 ms delay and a human-readable message, a sleep of exactly 2000 ms, one
resumed event, the second request, and the usage-update of the success — in
particular no HTTP request happens between the waiting and resumed events;
the call returns the successful response, and the engine run fed with that
outcome completes successfully with zero consecutive errors at its single
chat call and no error events. -/
theorem c4_rate_limit_recovery :
    chatC4.1 =
      [.request 0,
       .rlEvent
         { rlType := .waiting, waitMs := some 2000, currentUsage := some 0,
           limit := some 0, message := some "Rate limited by API. Retry after 2s..." },
       .sleepFor 2000,
       .rlEvent { rlType := .resumed, message := some "Resuming after rate limit" },
       .request 1,
       .rlEvent { rlType := .usage_update, currentUsage := some 10, limit := some 0 }] ∧
    (waitingEventsOf chatC4.1).length = 1 ∧
    (waitingEventsOf chatC4.1).map RateLimitEvent.waitMs = [some 2000] ∧
    (resumedEventsOf chatC4.1).length = 1 ∧
    clientSleepsOf chatC4.1 = [2000] ∧
    requestsOf chatC4.1 = [0, 1] ∧
    chatC4.2.1 = .ok respDone ∧
    chatCallsOf engineC4.1 = [(1, 0, 0)] ∧
    errorEventsOf engineC4.1 = [] ∧
    (engineC4.2.map AgentResult.success) = some true :=
  ⟨rfl, rfl, rfl, rfl, rfl, rfl, rfl, rfl, rfl, rfl⟩

/-! Projection lemmas over traces. -/

theorem chatCallsOf_append (a b : List TraceItem) :
    chatCallsOf (a ++ b) = chatCallsOf a ++ chatCallsOf b := by
  simp [chatCallsOf, List.filterMap_append]

theorem checkpointsOf_append (a b : List TraceItem) :
    checkpointsOf (a ++ b) = checkpointsOf a ++ checkpointsOf b := by
  simp [checkpointsOf, List.filterMap_append]

theorem discoveryEventsOf_append (a b : List TraceItem) :
    discoveryEventsOf (a ++ b) = discoveryEventsOf a ++ discoveryEventsOf b := by
  simp [discoveryEventsOf, List.filterMap_append]

theorem errorEventsOf_append (a b : List TraceItem) :
    errorEventsOf (a ++ b) = errorEventsOf a ++ errorEventsOf b := by
  simp [errorEventsOf, List.filterMap_append]

theorem toolResultEventsOf_append (a b : List TraceItem) :
    toolResultEventsOf (a ++ b) = toolResultEventsOf a ++ toolResultEventsOf b := by
  simp [toolResultEventsOf, List.filterMap_append]

theorem terminalCount_append (a b : List TraceItem) :
    terminalCount (a ++ b) = terminalCount a + terminalCount b := by
  simp [terminalCount, List.filter_append]

theorem chatCallsOf_eventMap (l : List AgentEvent) :
    chatCallsOf (l.map TraceItem.event) = [] := by
  induction l with
  | nil => rfl
  | cons e t ih => simp [chatCallsOf, List.filterMap_cons, ih]

theorem checkpointsOf_eventMap (l : List AgentEvent) :
    checkpointsOf (l.map TraceItem.event) = [] := by
  induction l with
  | nil => rfl
  | cons e t ih => simp [checkpointsOf, List.filterMap_cons, ih]

theorem discoveryEventsOf_dmap (l : List Discovery) :
    discoveryEventsOf ((l.map AgentEvent.discovery).map TraceItem.event) = l := by
  induction l with
  | nil => rfl
  | cons d t ih => simpa [discoveryEventsOf, List.filterMap_cons] using ih

theorem toolResultEventsOf_dmap (l : List Discovery) :
    toolResultEventsOf ((l.map AgentEvent.discovery).map TraceItem.event) = [] := by
  induction l with
  | nil => rfl
  | cons d t ih => simp [toolResultEventsOf, List.filterMap_cons, ih]

/-! Lemmas about discovery deduplication. -/

theorem addDiscovery_mem (d : Discovery) (st : List Discovery × List AgentEvent)
    (h : d.id ∈ st.1.map Discovery.id) : addDiscovery d st = st := by
  unfold addDiscovery
  cases hf : st.1.find? (fun e => e.id == d.id) with
  | some e => rfl
  | none =>
    exfalso
    rcases List.mem_map.mp h with ⟨e, he, hid⟩
    have hne := List.find?_eq_none.mp hf e he
    simp [hid] at hne

theorem addDiscovery_not_mem (d : Discovery) (st : List Discovery × List AgentEvent)
    (h : d.id ∉ st.1.map Discovery.id) :
    addDiscovery d st = (st.1 ++ [d], st.2 ++ [.discovery d]) := by
  unfold addDiscovery
  cases hf : st.1.find? (fun e => e.id == d.id) with
  | none => rfl
  | some e =>
    exfalso
    have hmem := List.mem_of_find?_eq_some hf
    have hp := List.find?_some hf
    simp only [beq_iff_eq] at hp
    exact h (List.mem_map.mpr ⟨e, hmem, hp⟩)

theorem foldl_addDiscovery_spec (g : DirEntry → Discovery) (es : List DirEntry) :
    ∀ (st : List Discovery × List AgentEvent),
      ∃ new,
        es.foldl (fun st e => addDiscovery (g e) st) st =
          (st.1 ++ new, st.2 ++ new.map AgentEvent.discovery) ∧
        (∀ y ∈ new.map Discovery.id, y ∈ es.map (fun e => (g e).id)) ∧
        (new.map Discovery.id).Nodup ∧
        (∀ d ∈ new, d.id ∉ st.1.map Discovery.id) ∧
        (∀ e ∈ es, (g e).id ∈ (st.1 ++ new).map Discovery.id) := by
  induction es with
  | nil =>
    intro st
    exact ⟨[], by simp, by simp, by simp, by simp, by simp⟩
  | cons e es ih =>
    intro st
    by_cases h : (g e).id ∈ st.1.map Discovery.id
    · obtain ⟨new, h1, h2, h3, h4, h5⟩ := ih st
      refine ⟨new, ?_, ?_, h3, h4, ?_⟩
      · simpa [addDiscovery_mem (g e) st h] using h1
      · intro y hy
        simpa using Or.inr (by simpa using h2 y hy)
      · intro e' he'
        rcases List.mem_cons.mp he' with rfl | he'
        · simp only [List.map_append]
          exact List.mem_append.mpr (Or.inl h)
        · exact h5 e' he'
    · obtain ⟨new, h1, h2, h3, h4, h5⟩ := ih (st.1 ++ [g e], st.2 ++ [.discovery (g e)])
      refine ⟨g e :: new, ?_, ?_, ?_, ?_, ?_⟩
      · rw [List.foldl_cons, addDiscovery_not_mem (g e) st h]
        simpa [List.append_assoc] using h1
      · intro y hy
        simp only [List.map_cons, List.mem_cons] at hy
        rcases hy with rfl | hy'
        · simp
        · simp only [List.map_cons, List.mem_cons]
          exact Or.inr (h2 y hy')
      · refine List.nodup_cons.mpr ⟨?_, h3⟩
        intro hmem
        rcases List.mem_map.mp hmem with ⟨d', hd', hid⟩
        have := h4 d' hd'
        simp [hid] at this
      · intro d' hd'
        rcases List.mem_cons.mp hd' with rfl | hd'
        · exact h
        · intro hmem
          exact h4 d' hd' (by simp [hmem])
      · intro e' he'
        rcases List.mem_cons.mp he' with rfl | he'
        · simp
        · have := h5 e' he'
          simpa [List.append_assoc] using this

theorem singleton_addDiscovery_spec (d0 : Discovery) (ds : List Discovery) (ids : List String)
    (hid : ids = [d0.id]) :
    ∃ new, addDiscovery d0 (ds, ([] : List AgentEvent)) = (ds ++ new, new.map AgentEvent.discovery) ∧
      (∀ y ∈ new.map Discovery.id, y ∈ ids) ∧
      (new.map Discovery.id).Nodup ∧
      (∀ d ∈ new, d.id ∉ ds.map Discovery.id) ∧
      (∀ y ∈ ids, y ∈ (ds ++ new).map Discovery.id) := by
  subst hid
  by_cases hmem : d0.id ∈ ds.map Discovery.id
  · refine ⟨[], ?_, by simp, by simp, by simp, ?_⟩
    · simpa using addDiscovery_mem d0 (ds, []) hmem
    · intro y hy
      simp only [List.mem_singleton] at hy
      subst hy
      simpa using hmem
  · refine ⟨[d0], ?_, by simp, by simp, ?_, ?_⟩
    · simpa using addDiscovery_not_mem d0 (ds, []) hmem
    · intro d hd
      simp only [List.mem_singleton] at hd
      subst hd
      exact hmem
    · intro y hy
      simp only [List.mem_singleton] at hy
      subst hy
      simp

theorem extractDiscoveries_spec (t : String) (i : ToolInput) (r : ToolResult)
    (ds : List Discovery) :
    ∃ new, extractDiscoveries t i r ds = (ds ++ new, new.map AgentEvent.discovery) ∧
      (∀ y ∈ new.map Discovery.id, y ∈ derivedIds t i r) ∧
      (new.map Discovery.id).Nodup ∧
      (∀ d ∈ new, d.id ∉ ds.map Discovery.id) ∧
      (∀ y ∈ derivedIds t i r, y ∈ (ds ++ new).map Discovery.id) := by
  simp only [extractDiscoveries, derivedIds]
  by_cases hs : (!r.success) = true
  · simp only [if_pos hs]
    exact ⟨[], by simp, by simp, by simp, by simp, by simp⟩
  · simp only [if_neg hs]
    by_cases hld : (t == "list_directory") = true
    · have ht := hld
      rw [beq_iff_eq] at ht
      subst ht
      have hrf : ¬(("list_directory" == "read_file") = true) := by decide
      simp only [if_pos hld, if_neg hrf, List.append_nil]
      cases hd : r.data with
      | none =>
        simp only [hd]
        exact ⟨[], by simp, by simp, by simp, by simp, by simp⟩
      | some d =>
        simp only [hd]
        obtain ⟨new, h1, h2, h3, h4, h5⟩ := foldl_addDiscovery_spec
          (fun e =>
            { id := e.kind ++ "-" ++ e.path,
              dtype := if e.kind == "directory" then .directory else .file,
              path := some e.path,
              description :=
                (if e.kind == "directory" then "Directory" else "File") ++ ": " ++ e.name,
              timestamp := 0 })
          d.entries (ds, [])
        refine ⟨new, h1, h2, h3, h4, ?_⟩
        intro y hy
        rcases List.mem_map.mp hy with ⟨e, he, rfl⟩
        exact h5 e he
    · by_cases hrf : (t == "read_file") = true
      · simp only [if_neg hld, if_pos hrf, List.nil_append]
        cases hd : r.data with
        | none =>
          simp only [hd]
          exact ⟨[], by simp, by simp, by simp, by simp, by simp⟩
        | some d =>
          simp only [hd]
          cases hf : d.format with
          | some f =>
            simp only [hf]
            exact singleton_addDiscovery_spec
              { id := "data-type-" ++ i.pathOf, dtype := .data_type, path := some i.pathOf,
                description := f.fileType ++ " file: " ++ i.pathOf ++
                  (match f.columns with
                   | some cols => " with " ++ toString cols.length ++ " columns"
                   | none => ""),
                metadata := some (.formatMeta f.fileType f.columns f.jsonStructure f.delimiter),
                timestamp := 0 } ds ["data-type-" ++ i.pathOf] rfl
          | none =>
            simp only [hf]
            cases hc : d.content with
            | none =>
              simp only [hc]
              exact ⟨[], by simp, by simp, by simp, by simp, by simp⟩
            | some c =>
              simp only [hc]
              by_cases hce : (c != "") = true
              · simp only [if_pos hce]
                cases hid : identifyDataType c i.pathOf with
                | none =>
                  simp only [hid]
                  exact ⟨[], by simp, by simp, by simp, by simp, by simp⟩
                | some p =>
                  obtain ⟨dt, meta⟩ := p
                  simp only [hid]
                  exact singleton_addDiscovery_spec
                    { id := "data-type-" ++ i.pathOf, dtype := .data_type,
                      path := some i.pathOf,
                      description := dt ++ " data in " ++ i.pathOf, metadata := meta,
                      timestamp := 0 } ds ["data-type-" ++ i.pathOf] rfl
              · simp only [if_neg hce]
                exact ⟨[], by simp, by simp, by simp, by simp, by simp⟩
      · simp only [if_neg hld, if_neg hrf, List.nil_append, List.append_nil]
        exact ⟨[], by simp, by simp, by simp, by simp, by simp⟩

theorem nodup_subset_singleton {l : List String} {x : String}
    (hn : l.Nodup) (hs : ∀ y ∈ l, y ∈ [x]) : l.length ≤ 1 := by
  match l, hn, hs with
  | [], _, _ => simp
  | [a], _, _ => simp
  | a :: b :: tl, hn, hs =>
    exfalso
    have ha : a = x := by simpa using hs a (by simp)
    have hb : b = x := by simpa using hs b (by simp)
    subst ha
    subst hb
    simp at hn

/-- C6: discovery ids are deterministic functions of the tool name and the
payload paths — every id present after extraction was already present or is
among `derivedIds` (entry kind ++ "-" ++ path per directory entry,
"data-type-" ++ path for file reads) — and deduplication by id is a no-op:
whenever two tool results resolve to the same single derived id, processing
both grows the discovery list by at most one, and the second extraction
changes nothing and emits no discovery event at all. -/
theorem c6_discovery_id_dedup :
    (∀ (t : String) (i : ToolInput) (r : ToolResult) (ds : List Discovery),
       ∀ y ∈ (extractDiscoveries t i r ds).1.map Discovery.id,
         y ∈ ds.map Discovery.id ++ derivedIds t i r) ∧
    (∀ (t1 : String) (i1 : ToolInput) (r1 : ToolResult)
       (t2 : String) (i2 : ToolInput) (r2 : ToolResult)
       (ds : List Discovery) (x : String),
       derivedIds t1 i1 r1 = [x] → derivedIds t2 i2 r2 = [x] →
       (extractDiscoveries t2 i2 r2 (extractDiscoveries t1 i1 r1 ds).1).1.length ≤
         ds.length + 1 ∧
       extractDiscoveries t2 i2 r2 (extractDiscoveries t1 i1 r1 ds).1 =
         ((extractDiscoveries t1 i1 r1 ds).1, [])) := by
  constructor
  · intro t i r ds y hy
    obtain ⟨new, e1, s1, _, _, _⟩ := extractDiscoveries_spec t i r ds
    rw [e1] at hy
    simp only [List.map_append, List.mem_append] at hy
    rcases hy with hy | hy
    · exact List.mem_append.mpr (Or.inl hy)
    · exact List.mem_append.mpr (Or.inr (s1 y hy))
  · intro t1 i1 r1 t2 i2 r2 ds x hd1 hd2
    obtain ⟨new1, e1, s1, n1, m1, c1⟩ := extractDiscoveries_spec t1 i1 r1 ds
    obtain ⟨new2, e2, s2, n2, m2, c2⟩ :=
      extractDiscoveries_spec t2 i2 r2 (extractDiscoveries t1 i1 r1 ds).1
    have hfst : (extractDiscoveries t1 i1 r1 ds).1 = ds ++ new1 := congrArg Prod.fst e1
    have hx : x ∈ (extractDiscoveries t1 i1 r1 ds).1.map Discovery.id := by
      have := c1 x (by simp [hd1])
      rw [hfst]
      exact this
    have hnew2 : new2 = [] := by
      cases hn2 : new2 with
      | nil => rfl
      | cons d tl =>
        exfalso
        have hdid : d.id ∈ derivedIds t2 i2 r2 := s2 d.id (by simp [hn2])
        rw [hd2] at hdid
        simp only [List.mem_singleton] at hdid
        exact m2 d (by simp [hn2]) (hdid ▸ hx)
    have hlen1 : new1.length ≤ 1 := by
      have hsub : ∀ y ∈ new1.map Discovery.id, y ∈ [x] := by
        intro y hy
        rw [← hd1]
        exact s1 y hy
      simpa using nodup_subset_singleton n1 hsub
    constructor
    · have : (extractDiscoveries t2 i2 r2 (extractDiscoveries t1 i1 r1 ds).1).1 =
          (extractDiscoveries t1 i1 r1 ds).1 ++ new2 := congrArg Prod.fst e2
      rw [this, hnew2, List.append_nil, hfst, List.length_append]
      omega
    · rw [hnew2] at e2
      simpa using e2

/-- Witness for C6: both components applied to the concrete `read_file`
scenario result, whose single derived id is "data-type-d.csv". -/
theorem c6_discovery_id_dedup_witness :
    (∀ y ∈ (extractDiscoveries "read_file" rfInput rfRes []).1.map Discovery.id,
       y ∈ ([] : List Discovery).map Discovery.id ++ derivedIds "read_file" rfInput rfRes) ∧
    ((extractDiscoveries "read_file" rfInput rfRes
        (extractDiscoveries "read_file" rfInput rfRes []).1).1.length ≤
      ([] : List Discovery).length + 1 ∧
     extractDiscoveries "read_file" rfInput rfRes
         (extractDiscoveries "read_file" rfInput rfRes []).1 =
       ((extractDiscoveries "read_file" rfInput rfRes []).1, [])) :=
  ⟨c6_discovery_id_dedup.1 "read_file" rfInput rfRes [],
   c6_discovery_id_dedup.2 "read_file" rfInput rfRes "read_file" rfInput rfRes []
     "data-type-d.csv" rfl rfl⟩

theorem buildResultBlock_events (tid : String) (r : ToolResult) :
    (buildResultBlock tid r).2 = [] ∨
      ∃ m, (buildResultBlock tid r).2 = [AgentEvent.error m] := by
  unfold buildResultBlock
  repeat' split
  all_goals first
    | exact Or.inl rfl
    | exact Or.inr ⟨_, rfl⟩

theorem toolResultEventsOf_buildEvents (tid : String) (r : ToolResult) :
    toolResultEventsOf ((buildResultBlock tid r).2.map TraceItem.event) = [] := by
  rcases buildResultBlock_events tid r with h | ⟨m, h⟩ <;> rw [h] <;> rfl

/-- C7, amended: for every requested invocation the engine emits a
tool_call event first; a tool_result event follows exactly when the tool
exists in the catalog and its execute returns without throwing (whether the
returned result is a success or a failure) — an unknown tool or a thrown
error yields an error tool-result block without any tool_result event. -/
theorem c7_tool_event_pairing_amended :
    ∀ (tools : List Tool) (tu : ToolUseBlock) (ds : List Discovery),
      (handleToolUse tools tu ds).1.head? = some (.event (.toolCall tu.name tu.input)) ∧
      toolResultEventsOf (handleToolUse tools tu ds).1 =
        (match tools.find? (fun tl => tl.name == tu.name) with
         | some tl =>
           (match tl.execute tu.input with
            | .ok _ => [tu.name]
            | .threw _ => [])
         | none => []) := by
  intro tools tu ds
  unfold handleToolUse
  cases hf : tools.find? (fun tl => tl.name == tu.name) with
  | none => exact ⟨rfl, rfl⟩
  | some tl =>
    cases he : tl.execute tu.input with
    | threw m =>
      simp only [he]
      exact ⟨rfl, rfl⟩
    | ok r =>
      simp only [he]
      refine ⟨rfl, ?_⟩
      obtain ⟨new, e1, _, _, _, _⟩ := extractDiscoveries_spec tu.name tu.input r ds
      have hsnd : (extractDiscoveries tu.name tu.input r ds).2 =
          new.map AgentEvent.discovery := congrArg Prod.snd e1
      show toolResultEventsOf
          ([.event (.toolCall tu.name tu.input), .event (.toolResult tu.name r)] ++
            (extractDiscoveries tu.name tu.input r ds).2.map .event ++
            (buildResultBlock tu.id r).2.map .event) = [tu.name]
      rw [toolResultEventsOf_append, toolResultEventsOf_append, hsnd,
        toolResultEventsOf_dmap, toolResultEventsOf_buildEvents]
      rfl

/-- Witness for C7's amended theorem: evaluated at the scenario catalog for
a succeeding tool, a throwing tool and an unknown tool. -/
theorem c7_tool_event_pairing_amended_witness :
    ((handleToolUse [toolA, toolB, toolC] ⟨"idA", "alpha", {}⟩ []).1.head? =
       some (.event (.toolCall "alpha" {})) ∧
     toolResultEventsOf (handleToolUse [toolA, toolB, toolC] ⟨"idA", "alpha", {}⟩ []).1 =
       ["alpha"]) ∧
    (toolResultEventsOf (handleToolUse [toolA, toolB, toolC] ⟨"idB", "beta", {}⟩ []).1 = []) ∧
    (toolResultEventsOf (handleToolUse [toolA, toolB, toolC] ⟨"idG", "ghost", {}⟩ []).1 = []) :=
  ⟨(c7_tool_event_pairing_amended [toolA, toolB, toolC] ⟨"idA", "alpha", {}⟩ []),
   (c7_tool_event_pairing_amended [toolA, toolB, toolC] ⟨"idB", "beta", {}⟩ []).2,
   (c7_tool_event_pairing_amended [toolA, toolB, toolC] ⟨"idG", "ghost", {}⟩ []).2⟩

theorem chatCallsOf_discoveryMap (l : List Discovery) :
    chatCallsOf (l.map (fun d => TraceItem.event (AgentEvent.discovery d))) = [] := by
  induction l with
  | nil => rfl
  | cons d tl ih => simp [chatCallsOf, List.filterMap_cons, ih]

theorem checkpointsOf_discoveryMap (l : List Discovery) :
    checkpointsOf (l.map (fun d => TraceItem.event (AgentEvent.discovery d))) = [] := by
  induction l with
  | nil => rfl
  | cons d tl ih => simp [checkpointsOf, List.filterMap_cons, ih]

theorem discoveryEventsOf_discoveryMap (l : List Discovery) :
    discoveryEventsOf (l.map (fun d => TraceItem.event (AgentEvent.discovery d))) = l := by
  induction l with
  | nil => rfl
  | cons d tl ih => simpa [discoveryEventsOf, List.filterMap_cons] using ih

theorem chatCallsOf_dmap (l : List Discovery) :
    chatCallsOf ((l.map AgentEvent.discovery).map TraceItem.event) = [] := by
  induction l with
  | nil => rfl
  | cons d tl ih => simp [chatCallsOf, List.filterMap_cons, ih]

theorem chatCallsOf_saveCk (opts : RunnerOptions) (ls : LoopState) (n : Nat) :
    chatCallsOf (saveCk opts ls n) = [] := by
  unfold saveCk
  split <;> rfl

theorem chatCallsOf_periodicCk (opts : RunnerOptions) (ls : LoopState) (n : Nat) :
    chatCallsOf (periodicCk opts ls n) = [] := by
  unfold periodicCk
  split
  · exact chatCallsOf_saveCk opts ls n
  · rfl

theorem chatCallsOf_buildEvents (tid : String) (r : ToolResult) :
    chatCallsOf ((buildResultBlock tid r).2.map TraceItem.event) = [] := by
  rcases buildResultBlock_events tid r with h | ⟨m, h⟩ <;> rw [h] <;> rfl

theorem chatCallsOf_handle (tools : List Tool) (tu : ToolUseBlock) (ds : List Discovery) :
    chatCallsOf (handleToolUse tools tu ds).1 = [] := by
  unfold handleToolUse
  cases hf : tools.find? (fun tl => tl.name == tu.name) with
  | none => rfl
  | some tl =>
    cases he : tl.execute tu.input with
    | threw m =>
      simp only [he]
      rfl
    | ok r =>
      simp only [he]
      obtain ⟨new, e1, _, _, _, _⟩ := extractDiscoveries_spec tu.name tu.input r ds
      have hsnd : (extractDiscoveries tu.name tu.input r ds).2 =
          new.map AgentEvent.discovery := congrArg Prod.snd e1
      rw [show chatCallsOf
            ([TraceItem.event (.toolCall tu.name tu.input),
              TraceItem.event (.toolResult tu.name r)] ++
              (extractDiscoveries tu.name tu.input r ds).2.map .event ++
              (buildResultBlock tu.id r).2.map .event) =
          chatCallsOf ((extractDiscoveries tu.name tu.input r ds).2.map .event) ++
            chatCallsOf ((buildResultBlock tu.id r).2.map .event) from by
        rw [chatCallsOf_append, chatCallsOf_append]; rfl]
      rw [hsnd, chatCallsOf_dmap, chatCallsOf_buildEvents]
      rfl

theorem chatCallsOf_process (tools : List Tool) :
    ∀ (tus : List ToolUseBlock) (ds : List Discovery),
      chatCallsOf (processToolUses tools tus ds).1 = []
  | [], _ => rfl
  | tu :: rest, ds => by
    simp only [processToolUses]
    rw [chatCallsOf_append, chatCallsOf_handle, chatCallsOf_process tools rest]
    rfl

/-- C8: the engine decides whether to attach an image by inspecting only
the result's data payload (the block built for an ok-executing tool is
`buildResultBlock tu.id r`, a function of the invocation id and the result
alone — the tool's name is not an input); when `includeImage === true` with
a string dataUrl that decodes, the tool_result content is exactly the
two-element sequence [text, image] from the data URL; when the flag is not
set, the content is the plain output string. -/
theorem c8_image_attach_decision :
    (∀ (tools : List Tool) (tu : ToolUseBlock) (tl : Tool) (r : ToolResult)
       (ds : List Discovery),
       tools.find? (fun t => t.name == tu.name) = some tl →
       tl.execute tu.input = .ok r →
       (handleToolUse tools tu ds).2.1 = (buildResultBlock tu.id r).1) ∧
    (∀ (tid : String) (r : ToolResult), includesImage r = false →
       (buildResultBlock tid r).1 = .tool_resultStr tid r.output (!r.success)) ∧
    (∀ (tid : String) (r : ToolResult) (d : ToolData) (u mt b64 : String),
       r.data = some d → d.includeImage = some true → d.dataUrl = some u →
       parseDataUrl u = some (mt, b64) →
       (buildResultBlock tid r).1 =
         .tool_resultBlocks tid [.text r.output, .image mt b64] (!r.success)) := by
  refine ⟨?_, ?_, ?_⟩
  · intro tools tu tl r ds hf he
    unfold handleToolUse
    simp only [hf, he]
  · intro tid r h
    unfold buildResultBlock
    cases hd : r.data with
    | none => rfl
    | some d =>
      simp only [hd]
      cases hii : d.includeImage with
      | none => rfl
      | some b =>
        cases b with
        | false => rfl
        | true =>
          cases hdu : d.dataUrl with
          | none => rfl
          | some u =>
            exfalso
            simp [includesImage, hd, hii, hdu] at h
  · intro tid r d u mt b64 hd hii hdu hp
    unfold buildResultBlock createToolResultWithImage
    simp only [hd, hii, hdu, hp]

/-- Witness for C8: all three components evaluated at a concrete
screenshot-like result with an embedded data URL, and a plain result. -/
theorem c8_image_attach_decision_witness :
    ((handleToolUse
        [{ name := "shot",
           execute := fun _ => .ok
             { success := true, output := "shot taken",
               data := some { includeImage := some true,
                              dataUrl := some "data:image/png;base64,AAA" } } }]
        ⟨"idS", "shot", {}⟩ []).2.1 =
      (buildResultBlock "idS"
        { success := true, output := "shot taken",
          data := some { includeImage := some true,
                         dataUrl := some "data:image/png;base64,AAA" } }).1) ∧
    ((buildResultBlock "idP" { success := true, output := "plain" }).1 =
      .tool_resultStr "idP" "plain" (!true)) ∧
    ((buildResultBlock "idS"
        { success := true, output := "shot taken",
          data := some { includeImage := some true,
                         dataUrl := some "data:image/png;base64,AAA" } }).1 =
      .tool_resultBlocks "idS" [.text "shot taken", .image "image/png" "AAA"] (!true)) :=
  ⟨c8_image_attach_decision.1 _ ⟨"idS", "shot", {}⟩ _ _ [] rfl rfl,
   c8_image_attach_decision.2.1 "idP" { success := true, output := "plain" } rfl,
   c8_image_attach_decision.2.2 "idS" _
     { includeImage := some true, dataUrl := some "data:image/png;base64,AAA" }
     "data:image/png;base64,AAA" "image/png" "AAA" rfl rfl rfl rfl⟩

/-- C10: on a successful response whose stop_reason is neither end_turn nor
tool_use, the iteration appends no message (the continuation state keeps
`messages` unchanged and no tool results are produced), accumulates only
token usage, emits at most a thinking event, and re-invokes the loop; a run
whose transport always answers max_tokens therefore ends only through the
iteration budget, with an unchanged single-message history. -/
theorem c10_non_tool_stop_reason :
    (∀ (cfg : AgentConfig) (opts : RunnerOptions)
       (transport : Nat → Except EngineError ChatResponse) (stopSignal : Nat → Bool)
       (fuel : Nat) (ls : LoopState) (resp : ChatResponse),
       stopSignal ls.checks = false →
       ls.iteration < effMaxIterations cfg →
       transport ls.chatIdx = .ok resp →
       (resp.stop_reason = .max_tokens ∨ resp.stop_reason = .stop_sequence) →
       loopGo cfg opts transport stopSignal (fuel + 1) ls =
         (periodicCk opts ls (ls.iteration + 1) ++
            [.chatCall (ls.iteration + 1) ls.chatIdx ls.consecutiveErrors] ++
            (if extractTextContent resp != "" then
               [.event (.thinking (extractTextContent resp))] else []) ++
            (loopGo cfg opts transport stopSignal fuel (contLoopState ls resp)).1,
          (loopGo cfg opts transport stopSignal fuel (contLoopState ls resp)).2) ∧
       (contLoopState ls resp).messages = ls.messages ∧
       (contLoopState ls resp).tokenUsage =
         ⟨ls.tokenUsage.input + resp.usage.input_tokens,
          ls.tokenUsage.output + resp.usage.output_tokens⟩) ∧
    runC10.2 = some
      { success := false, summary := "Agent reached maximum iterations without completing.",
        discoveries := [], conversationHistory := [Message.mk .user (.str "go")],
        tokenUsage := ⟨4, 4⟩ } ∧
    chatCallsOf runC10.1 = [(1, 0, 0), (2, 1, 0)] ∧
    statusChangesOf runC10.1 =
      [(.running, none), (.error, some "Maximum iterations reached")] := by
  refine ⟨?_, rfl, rfl, rfl⟩
  intro cfg opts transport stopSignal fuel ls resp h1 h2 h3 h4
  rcases h4 with h4 | h4 <;>
    exact ⟨by simp only [loopGo, h1, h3, h4, Bool.false_eq_true, if_false, if_pos h2], rfl, rfl⟩

/-- Witness for C10: one step of the loop from the initial state against
the always-max_tokens transport. -/
theorem c10_non_tool_stop_reason_witness :
    (loopGo cfgPlain {} transportMaxTok noStop (0 + 1) lsC10 =
      (periodicCk {} lsC10 (lsC10.iteration + 1) ++
         [.chatCall (lsC10.iteration + 1) lsC10.chatIdx lsC10.consecutiveErrors] ++
         (if extractTextContent respMaxTok != "" then
            [.event (.thinking (extractTextContent respMaxTok))] else []) ++
         (loopGo cfgPlain {} transportMaxTok noStop 0 (contLoopState lsC10 respMaxTok)).1,
       (loopGo cfgPlain {} transportMaxTok noStop 0 (contLoopState lsC10 respMaxTok)).2)) ∧
    (contLoopState lsC10 respMaxTok).messages = lsC10.messages ∧
    (contLoopState lsC10 respMaxTok).tokenUsage =
      ⟨lsC10.tokenUsage.input + respMaxTok.usage.input_tokens,
       lsC10.tokenUsage.output + respMaxTok.usage.output_tokens⟩ :=
  c10_non_tool_stop_reason.1 cfgPlain {} transportMaxTok noStop 0 lsC10 respMaxTok rfl
    (by decide) rfl (Or.inl rfl)

theorem chatCallsOf_nil : chatCallsOf [] = [] := rfl

theorem chatCallsOf_cons_event (e : AgentEvent) (tr : List TraceItem) :
    chatCallsOf (.event e :: tr) = chatCallsOf tr := rfl

theorem chatCallsOf_cons_ckpt (c : CheckpointData) (tr : List TraceItem) :
    chatCallsOf (.checkpoint c :: tr) = chatCallsOf tr := rfl

theorem chatCallsOf_cons_call (it idx cE : Nat) (tr : List TraceItem) :
    chatCallsOf (.chatCall it idx cE :: tr) = (it, idx, cE) :: chatCallsOf tr := rfl

theorem chatCallsOf_cons_sleep (ms : Nat) (tr : List TraceItem) :
    chatCallsOf (.sleep ms :: tr) = chatCallsOf tr := rfl

theorem checkpointsOf_nil : checkpointsOf [] = [] := rfl

theorem checkpointsOf_cons_event (e : AgentEvent) (tr : List TraceItem) :
    checkpointsOf (.event e :: tr) = checkpointsOf tr := rfl

theorem checkpointsOf_cons_ckpt (c : CheckpointData) (tr : List TraceItem) :
    checkpointsOf (.checkpoint c :: tr) = c :: checkpointsOf tr := rfl

theorem discoveryEventsOf_nil : discoveryEventsOf [] = [] := rfl

theorem discoveryEventsOf_cons_ckpt (c : CheckpointData) (tr : List TraceItem) :
    discoveryEventsOf (.checkpoint c :: tr) = discoveryEventsOf tr := rfl

theorem discoveryEventsOf_cons_status (st : AgentStatus) (m : Option String)
    (tr : List TraceItem) :
    discoveryEventsOf (.event (.statusChange st m) :: tr) = discoveryEventsOf tr := rfl

theorem discoveryEventsOf_cons_error (e : String) (tr : List TraceItem) :
    discoveryEventsOf (.event (.error e) :: tr) = discoveryEventsOf tr := rfl

theorem executeLoopModel_chatCalls (cfg : AgentConfig) (opts : RunnerOptions)
    (transport : Nat → Except EngineError ChatResponse) (stopSignal : Nat → Bool)
    (fuel : Nat) (msgs : List Message) (ds : List Discovery) (tu : TokenTotals)
    (si : Nat) (ip : Option String) :
    chatCallsOf (executeLoopModel cfg opts transport stopSignal fuel msgs ds tu si ip).1 =
      chatCallsOf (loopGo cfg opts transport stopSignal fuel
        { status := .running, messages := msgs, discoveries := ds, tokenUsage := tu,
          iteration := si, consecutiveErrors := 0, chatIdx := 0, checks := 0 }).1 := by
  unfold executeLoopModel
  rcases hr : loopGo cfg opts transport stopSignal fuel
      { status := .running, messages := msgs, discoveries := ds, tokenUsage := tu,
        iteration := si, consecutiveErrors := 0, chatIdx := 0, checks := 0 } with ⟨tr, ex⟩
  cases ex <;> cases ip <;>
    simp [hr, chatCallsOf_append, chatCallsOf_cons_event, chatCallsOf_nil, chatCallsOf_saveCk,
      chatCallsOf_cons_ckpt]

/-- C3: resuming from any checkpoint with the stop signal already set makes
no transport call, and the first checkpoint written carries exactly the
resumed snapshot's messages, discoveries, token usage and iteration; the
discovery events of such a run are exactly one re-emission per discovery
already in the checkpoint; and without a stop the first transport call of a
resumed run happens at iteration k+1 with call index 0 and a zero error
counter — the turn that produced the checkpoint at iteration k is not
re-issued. -/
theorem c3_checkpoint_resume_roundtrip :
    (∀ (cfg : AgentConfig) (opts : RunnerOptions)
       (transport : Nat → Except EngineError ChatResponse) (fuel : Nat)
       (cp : CheckpointData),
       opts.onCheckpoint = true →
       chatCallsOf (resumeAgent cfg opts transport stopNow (fuel + 1) cp).1 = [] ∧
       (checkpointsOf (resumeAgent cfg opts transport stopNow (fuel + 1) cp).1).head? =
         some ⟨cp.messages, cp.discoveries, cp.tokenUsage, cp.iteration⟩ ∧
       discoveryEventsOf (resumeAgent cfg opts transport stopNow (fuel + 1) cp).1 =
         cp.discoveries) ∧
    (∀ (cfg : AgentConfig) (opts : RunnerOptions)
       (transport : Nat → Except EngineError ChatResponse) (fuel : Nat)
       (cp : CheckpointData),
       cp.iteration < effMaxIterations cfg →
       (chatCallsOf (resumeAgent cfg opts transport noStop (fuel + 1) cp).1).head? =
         some (cp.iteration + 1, 0, 0)) := by
  constructor
  · intro cfg opts transport fuel cp hck
    by_cases h : cp.iteration < effMaxIterations cfg
    · simp [resumeAgent, executeLoopModel, loopGo, stopNow, saveCk, hck, h,
        chatCallsOf_append, chatCallsOf_discoveryMap, chatCallsOf_cons_event,
        chatCallsOf_cons_ckpt, chatCallsOf_nil,
        checkpointsOf_append, checkpointsOf_discoveryMap, checkpointsOf_cons_event,
        checkpointsOf_cons_ckpt, checkpointsOf_nil,
        discoveryEventsOf_append, discoveryEventsOf_discoveryMap,
        discoveryEventsOf_cons_ckpt, discoveryEventsOf_cons_status,
        discoveryEventsOf_cons_error, discoveryEventsOf_nil]
    · simp [resumeAgent, executeLoopModel, loopGo, stopNow, saveCk, hck, h,
        chatCallsOf_append, chatCallsOf_discoveryMap, chatCallsOf_cons_event,
        chatCallsOf_cons_ckpt, chatCallsOf_nil,
        checkpointsOf_append, checkpointsOf_discoveryMap, checkpointsOf_cons_event,
        checkpointsOf_cons_ckpt, checkpointsOf_nil,
        discoveryEventsOf_append, discoveryEventsOf_discoveryMap,
        discoveryEventsOf_cons_ckpt, discoveryEventsOf_cons_status,
        discoveryEventsOf_cons_error, discoveryEventsOf_nil]
  · intro cfg opts transport fuel cp h
    have hw := executeLoopModel_chatCalls cfg opts transport noStop (fuel + 1)
      cp.messages cp.discoveries cp.tokenUsage cp.iteration none
    simp only [resumeAgent]
    rw [chatCallsOf_append]
    simp only [chatCallsOf_append, chatCallsOf_cons_event, chatCallsOf_nil,
      chatCallsOf_discoveryMap, List.singleton_append, chatCallsOf_cons_event,
      List.nil_append]
    rw [hw]
    simp only [loopGo, noStop, Bool.false_eq_true, if_false, if_pos h]
    cases ht : transport 0 with
    | ok resp =>
      simp only [ht]
      cases hsr : resp.stop_reason <;>
        simp [hsr, chatCallsOf_append, chatCallsOf_periodicCk, chatCallsOf_cons_call,
          chatCallsOf_cons_event, chatCallsOf_nil]
    | error e =>
      simp only [ht]
      split <;>
        simp [chatCallsOf_append, chatCallsOf_periodicCk, chatCallsOf_saveCk,
          chatCallsOf_cons_call, chatCallsOf_cons_event, chatCallsOf_cons_ckpt,
          chatCallsOf_cons_sleep, chatCallsOf_nil]

/-- Witness for C3: both components at the concrete checkpoint fixture. -/
theorem c3_checkpoint_resume_roundtrip_witness :
    (chatCallsOf (resumeAgent cfgPlain {} transportOverload stopNow (9 + 1) cpEx).1 = [] ∧
     (checkpointsOf (resumeAgent cfgPlain {} transportOverload stopNow (9 + 1) cpEx).1).head? =
       some ⟨cpEx.messages, cpEx.discoveries, cpEx.tokenUsage, cpEx.iteration⟩ ∧
     discoveryEventsOf (resumeAgent cfgPlain {} transportOverload stopNow (9 + 1) cpEx).1 =
       cpEx.discoveries) ∧
    (chatCallsOf (resumeAgent cfgPlain {} transportOverload noStop (9 + 1) cpEx).1).head? =
      some (cpEx.iteration + 1, 0, 0) :=
  ⟨c3_checkpoint_resume_roundtrip.1 cfgPlain {} transportOverload 9 cpEx rfl,
   c3_checkpoint_resume_roundtrip.2 cfgPlain {} transportOverload 9 cpEx (by decide)⟩

theorem terminalCount_nil : terminalCount [] = 0 := rfl

theorem terminalCount_cons (i : TraceItem) (tr : List TraceItem) :
    terminalCount (i :: tr) =
      (if isTerminalItem i = true then 1 else 0) + terminalCount tr := by
  by_cases h : isTerminalItem i = true <;>
    simp [terminalCount, List.filter_cons, h, Nat.add_comm]

theorem terminalCount_saveCk (opts : RunnerOptions) (ls : LoopState) (n : Nat) :
    terminalCount (saveCk opts ls n) = 0 := by
  unfold saveCk
  split <;> rfl

theorem terminalCount_periodicCk (opts : RunnerOptions) (ls : LoopState) (n : Nat) :
    terminalCount (periodicCk opts ls n) = 0 := by
  unfold periodicCk
  split
  · exact terminalCount_saveCk opts ls n
  · rfl

theorem terminalCount_dmap (l : List Discovery) :
    terminalCount ((l.map AgentEvent.discovery).map TraceItem.event) = 0 := by
  induction l with
  | nil => rfl
  | cons d tl ih =>
    rw [List.map_cons, List.map_cons, terminalCount_cons, ih]
    rfl

theorem terminalCount_discoveryMap (l : List Discovery) :
    terminalCount (l.map (fun d => TraceItem.event (AgentEvent.discovery d))) = 0 := by
  induction l with
  | nil => rfl
  | cons d tl ih =>
    rw [List.map_cons, terminalCount_cons, ih]
    rfl

theorem terminalCount_buildEvents (tid : String) (r : ToolResult) :
    terminalCount ((buildResultBlock tid r).2.map TraceItem.event) = 0 := by
  rcases buildResultBlock_events tid r with h | ⟨m, h⟩ <;> rw [h] <;> rfl

theorem terminalCount_handle (tools : List Tool) (tu : ToolUseBlock) (ds : List Discovery) :
    terminalCount (handleToolUse tools tu ds).1 = 0 := by
  unfold handleToolUse
  cases hf : tools.find? (fun tl => tl.name == tu.name) with
  | none => rfl
  | some tl =>
    cases he : tl.execute tu.input with
    | threw m =>
      simp only [he]
      rfl
    | ok r =>
      simp only [he]
      obtain ⟨new, e1, _, _, _, _⟩ := extractDiscoveries_spec tu.name tu.input r ds
      have hsnd : (extractDiscoveries tu.name tu.input r ds).2 =
          new.map AgentEvent.discovery := congrArg Prod.snd e1
      rw [terminalCount_append, terminalCount_append, hsnd, terminalCount_dmap,
        terminalCount_buildEvents]
      rfl

theorem terminalCount_process (tools : List Tool) :
    ∀ (tus : List ToolUseBlock) (ds : List Discovery),
      terminalCount (processToolUses tools tus ds).1 = 0
  | [], _ => rfl
  | tu :: rest, ds => by
    simp only [processToolUses]
    rw [terminalCount_append, terminalCount_handle, terminalCount_process tools rest]

theorem loopGo_terminal (cfg : AgentConfig) (opts : RunnerOptions)
    (transport : Nat → Except EngineError ChatResponse) (stopSignal : Nat → Bool) :
    ∀ (fuel : Nat) (ls : LoopState),
      terminalCount (loopGo cfg opts transport stopSignal fuel ls).1 =
        (match (loopGo cfg opts transport stopSignal fuel ls).2 with
         | .completed _ => 1
         | _ => 0) := by
  intro fuel
  induction fuel with
  | zero => intro ls; rfl
  | succ fuel ih =>
    intro ls
    simp only [loopGo]
    by_cases h1 : ls.iteration < effMaxIterations cfg
    · rw [if_pos h1]
      by_cases h2 : stopSignal ls.checks = true
      · simp [h2, terminalCount_saveCk]
      · simp only [eq_false_of_ne_true h2, Bool.false_eq_true, if_false]
        cases ht : transport ls.chatIdx with
        | ok resp =>
          by_cases htx : (extractTextContent resp != "") = true <;>
            cases hsr : resp.stop_reason <;>
              simp [htx, hsr, terminalCount_append, terminalCount_periodicCk,
                terminalCount_cons, terminalCount_saveCk, terminalCount_nil,
                terminalCount_process, isTerminalItem, ih]
        | error e =>
          simp only []
          split <;>
            simp [terminalCount_append, terminalCount_periodicCk, terminalCount_saveCk,
              terminalCount_cons, terminalCount_nil, isTerminalItem, ih]
    · rw [if_neg h1]
      rfl

theorem executeLoopModel_terminal (cfg : AgentConfig) (opts : RunnerOptions)
    (transport : Nat → Except EngineError ChatResponse) (stopSignal : Nat → Bool)
    (fuel : Nat) (msgs : List Message) (ds : List Discovery) (tu : TokenTotals)
    (si : Nat) (ip : Option String) (r : AgentResult)
    (h : (executeLoopModel cfg opts transport stopSignal fuel msgs ds tu si ip).2 = some r) :
    terminalCount (executeLoopModel cfg opts transport stopSignal fuel msgs ds tu si ip).1
      = 1 := by
  have hterm := loopGo_terminal cfg opts transport stopSignal fuel
    { status := .running, messages := msgs, discoveries := ds, tokenUsage := tu,
      iteration := si, consecutiveErrors := 0, chatIdx := 0, checks := 0 }
  simp only [executeLoopModel] at h ⊢
  rcases hr : loopGo cfg opts transport stopSignal fuel
      { status := .running, messages := msgs, discoveries := ds, tokenUsage := tu,
        iteration := si, consecutiveErrors := 0, chatIdx := 0, checks := 0 } with ⟨tr, ex⟩
  rw [hr] at hterm
  cases ex with
  | completed res =>
    cases ip <;>
      simp_all [terminalCount_append, terminalCount_cons, terminalCount_nil, isTerminalItem]
  | maxIterExit ls' =>
    cases ip <;>
      simp_all [terminalCount_append, terminalCount_cons, terminalCount_nil,
        terminalCount_saveCk, isTerminalItem]
  | threw e ls' =>
    cases ip <;>
      simp_all [terminalCount_append, terminalCount_cons, terminalCount_nil,
        terminalCount_saveCk, isTerminalItem]
  | fuelOut =>
    rw [hr] at h
    simp at h

/-- C9: every run that returns a result performs exactly one terminal
transition — one `complete` event or one `status_change` to error, never
both, never more than one — whether started fresh or resumed. -/
theorem c9_terminal_uniqueness :
    (∀ (cfg : AgentConfig) (opts : RunnerOptions)
       (transport : Nat → Except EngineError ChatResponse) (stopSignal : Nat → Bool)
       (fuel : Nat) (prompt : String) (r : AgentResult),
       (runAgent cfg opts transport stopSignal fuel prompt).2 = some r →
       terminalCount (runAgent cfg opts transport stopSignal fuel prompt).1 = 1) ∧
    (∀ (cfg : AgentConfig) (opts : RunnerOptions)
       (transport : Nat → Except EngineError ChatResponse) (stopSignal : Nat → Bool)
       (fuel : Nat) (cp : CheckpointData) (r : AgentResult),
       (resumeAgent cfg opts transport stopSignal fuel cp).2 = some r →
       terminalCount (resumeAgent cfg opts transport stopSignal fuel cp).1 = 1) := by
  constructor
  · intro cfg opts transport stopSignal fuel prompt r h
    exact executeLoopModel_terminal cfg opts transport stopSignal fuel _ _ _ _ _ r h
  · intro cfg opts transport stopSignal fuel cp r h
    simp only [resumeAgent] at h ⊢
    rw [terminalCount_append]
    have hpre : terminalCount
        (TraceItem.event (.statusChange .running (some "Resuming...")) ::
          cp.discoveries.map (fun d => TraceItem.event (.discovery d))) = 0 := by
      rw [terminalCount_cons, terminalCount_discoveryMap]
      rfl
    rw [List.singleton_append, hpre, Nat.zero_add]
    exact executeLoopModel_terminal cfg opts transport stopSignal fuel _ _ _ _ _ r h

/-- Witness for C9: the first component at the overload scenario, whose
result is the error-status failure. -/
theorem c9_terminal_uniqueness_witness :
    terminalCount (runAgent cfgPlain {} transportOverload noStop 10 "go").1 = 1 :=
  c9_terminal_uniqueness.1 cfgPlain {} transportOverload noStop 10 "go"
    { success := false, summary := "Agent error: Overloaded", discoveries := [],
      conversationHistory := [Message.mk .user (.str "go")], tokenUsage := ⟨0, 0⟩ } rfl

/-- C7, counterexample: in the turn requesting the unknown tool "ghost" the
engine emits a tool_call event but no tool_result event at all (and the run
otherwise completes), refuting the claim that every invocation yields a
tool_call/tool_result event pair regardless of outcome. -/
theorem c7_unpaired_tool_result_cex :
    toolCallEventsOf runC7.1 = ["ghost"] ∧
    toolResultEventsOf runC7.1 = [] ∧
    (runC7.2.map AgentResult.success) = some true :=
  ⟨rfl, rfl, rfl⟩

end Yirga
